import Mathlib

/-!
# Verification of the eth-trading-bot signal/backtest core

Shallow embedding, over `ℚ`, of the signal-scoring strategies
(`strategy.py`, `strategy_overnight.py`, `strategy_trend.py`) and of the
backtest simulation engines (`backtest.py`, and the close/statistics steps
of `backtest_all.py` and `compare_strategies.py`).

Modelling conventions:
* Python floats are modelled as rationals (`ℚ`); `round(x, n)` is modelled
  as round-half-up at `n` decimals (Python uses the IEEE-754 半偶 rule, which
  differs only on exact half-ulp ties; no statement below sits on a tie).
* Python dicts of indicators become a record of `Option ℚ` fields;
  `d.get(k, v)` becomes `field.getD v`.  An empty dict has every field
  `none`, in particular `price = none`.
* `datetime.now()` is modelled by threading an explicit clock value
  (a `String`) into `analyze`; simulated bar times are rationals (hours).
* The engine (`Backtester.run_backtest`) is embedded parametrically in the
  per-bar indicator snapshots (`TechnicalIndicators.calculate_all`, an
  external collaborator producing one snapshot per bar prefix) and in the
  strategy's `analyze` function, exactly at the two call sites the source
  uses them.
-/

/-- Round-half-up at 2 decimal places; models Python `round(x, 2)`
(they differ only on exact half-cent ties). -/
def round2 (q : ℚ) : ℚ := ((⌊q * 100 + 1/2⌋ : ℤ) : ℚ) / 100

/-- Round-half-up at 1 decimal place; models Python `round(x, 1)`. -/
def round1 (q : ℚ) : ℚ := ((⌊q * 10 + 1/2⌋ : ℤ) : ℚ) / 10

/-- Truncation toward zero; models Python `int(x)`. -/
def ratTrunc (q : ℚ) : ℤ := if 0 ≤ q then ⌊q⌋ else ⌈q⌉

/-- Fixed-point decimal rendering; models Python `f"{x:.pf}"` string
formatting, used only inside the human-readable `reasons` strings
(half-up instead of Python's half-even at exact ties). -/
def fmtFixed (prec : Nat) (q : ℚ) : String :=
  let n : ℤ := ⌊q * ((10:ℚ) ^ prec) + 1/2⌋
  let sign := if n < 0 then "-" else ""
  let m : ℕ := n.natAbs
  let ip : ℕ := m / 10 ^ prec
  let fpart : ℕ := m % 10 ^ prec
  if prec = 0 then sign ++ toString ip
  else
    let s := toString fpart
    let pad := String.mk (List.replicate (prec - s.length) '0')
    sign ++ toString ip ++ "." ++ pad ++ s

theorem round2_le (q : ℚ) : round2 q ≤ q + 1/200 := by
  unfold round2
  have h := Int.floor_le (q * 100 + 1/2)
  have : ((⌊q * 100 + 1/2⌋ : ℤ) : ℚ) ≤ q * 100 + 1/2 := h
  linarith

theorem lt_round2 (q : ℚ) : q - 1/200 < round2 q := by
  unfold round2
  have h := Int.lt_floor_add_one (q * 100 + 1/2)
  have : q * 100 + 1/2 < ((⌊q * 100 + 1/2⌋ : ℤ) : ℚ) + 1 := h
  linarith

theorem round2_idem (q : ℚ) : round2 (round2 q) = round2 q := by
  unfold round2
  have h : (((⌊q * 100 + 1/2⌋ : ℤ) : ℚ) / 100) * 100 + 1/2
      = ((⌊q * 100 + 1/2⌋ : ℤ) : ℚ) + 1/2 := by ring
  rw [h, Int.floor_int_add]
  norm_num

/-- The indicator snapshot: the dict produced per bar by
`TechnicalIndicators.calculate_all`.  Every key the three embedded
strategies read is a field; an absent key is `none`. -/
structure Snapshot where
  price : Option ℚ := none
  atr : Option ℚ := none
  rsi : Option ℚ := none
  bb_pband : Option ℚ := none
  bb_width : Option ℚ := none
  bb_lower : Option ℚ := none
  bb_upper : Option ℚ := none
  bb_middle : Option ℚ := none
  stoch_k : Option ℚ := none
  stoch_d : Option ℚ := none
  ma_20 : Option ℚ := none
  ma_50 : Option ℚ := none
  ma_200 : Option ℚ := none
  ema_9 : Option ℚ := none
  ema_21 : Option ℚ := none
  macd : Option ℚ := none
  macd_signal : Option ℚ := none
  macd_hist : Option ℚ := none
  adx : Option ℚ := none
  di_plus : Option ℚ := none
  di_minus : Option ℚ := none
  volume_ratio : Option ℚ := none
  obv_change : Option ℚ := none
  s1 : Option ℚ := none
  s2 : Option ℚ := none
  r1 : Option ℚ := none
  r2 : Option ℚ := none
  fib_382 : Option ℚ := none
  fib_618 : Option ℚ := none
deriving DecidableEq, Repr

/-- `SignalType` enum shared by the strategy modules (each Python file
repeats the same five-member enum; one type suffices since the engines
only compare members for (in)equality). -/
inductive SignalType where
  | STRONG_BUY
  | BUY
  | NEUTRAL
  | SELL
  | STRONG_SELL
deriving DecidableEq, Repr

/-- `signal_type in [SignalType.BUY, SignalType.STRONG_BUY]`. -/
def isBuyType : SignalType → Bool
  | .BUY => true
  | .STRONG_BUY => true
  | _ => false

def isSellType : SignalType → Bool
  | .SELL => true
  | .STRONG_SELL => true
  | _ => false

/-- The `TradeSignal` dataclass.  `timestamp` is the wall-clock string the
source fills with `datetime.now().strftime(...)`; it is threaded in as an
explicit argument of `analyze`. -/
structure TradeSignal where
  signal_type : SignalType
  strength : ℕ
  price : ℚ
  entry_price : ℚ
  stop_loss : ℚ
  take_profit : ℚ
  reasons : List String
  timeframe : String
  timestamp : String
deriving DecidableEq, Repr

/-- Strategy-section config: the only key the embedded strategies read from
`config['strategy']` is `signal_threshold` (with per-variant defaults). -/
structure StratCfg where
  signal_threshold : Option ℚ := none
deriving DecidableEq, Repr

/-- A sub-score: the `{'score': ..., 'reasons': [...]}` dict each scoring
helper returns. -/
structure SubScore where
  score : ℚ
  reasons : List String
deriving DecidableEq, Repr

/-- Python's `max(l) if l else dflt` idiom. -/
def pyMax (l : List ℚ) (dflt : ℚ) : ℚ :=
  match l.max? with
  | some m => m
  | none => dflt

/-- Python's `min(l) if l else dflt` idiom. -/
def pyMin (l : List ℚ) (dflt : ℚ) : ℚ :=
  match l.min? with
  | some m => m
  | none => dflt

namespace Trading

/-- `TradingStrategy._get_market_state`. -/
def getMarketState (ind : Snapshot) : String :=
  let adx := ind.adx.getD 25
  let bb_width := ind.bb_width.getD (3/100)
  if adx > 30 ∧ bb_width > 4/100 then "trending"
  else if adx < 20 ∨ bb_width < 2/100 then "ranging"
  else "mixed"

/-- `TradingStrategy._mean_reversion_signal`. -/
def meanReversionSignal (ind : Snapshot) : SubScore :=
  let rsi := ind.rsi.getD 50
  let (s1, r1) : ℚ × List String :=
    if rsi < 20 then (50, ["RSI=" ++ fmtFixed 0 rsi ++ " 极度超卖"])
    else if rsi < 30 then (35, ["RSI=" ++ fmtFixed 0 rsi ++ " 超卖"])
    else if rsi < 40 then (15, [])
    else if rsi > 80 then (-50, ["RSI=" ++ fmtFixed 0 rsi ++ " 极度超买"])
    else if rsi > 70 then (-35, ["RSI=" ++ fmtFixed 0 rsi ++ " 超买"])
    else if rsi > 60 then (-15, [])
    else (0, [])
  let bb_pband := ind.bb_pband.getD (1/2)
  let (s2, r2) : ℚ × List String :=
    if bb_pband < -(5/100) then (40, ["突破布林带下轨"])
    else if bb_pband < 1/10 then (25, [])
    else if bb_pband > 105/100 then (-40, ["突破布林带上轨"])
    else if bb_pband > 9/10 then (-25, [])
    else (0, [])
  let k := ind.stoch_k.getD 50
  let d := ind.stoch_d.getD 50
  let (s3, r3) : ℚ × List String :=
    if k < 15 ∧ d < 20 ∧ k > d then (35, ["随机指标超卖金叉"])
    else if k > 85 ∧ d > 80 ∧ k < d then (-35, ["随机指标超买死叉"])
    else if k < 25 ∧ k > d then (20, [])
    else if k > 75 ∧ k < d then (-20, [])
    else (0, [])
  { score := max (-100) (min 100 (s1 + s2 + s3)), reasons := r1 ++ r2 ++ r3 }

/-- `TradingStrategy._trend_signal` (`price = ind['price']` is passed in;
`analyze` guarantees the key is present). -/
def trendSignal (ind : Snapshot) (price : ℚ) : SubScore :=
  let ma20 := ind.ma_20.getD price
  let ma50 := ind.ma_50.getD price
  let ema9 := ind.ema_9.getD price
  let ema21 := ind.ema_21.getD price
  let (s1, r1) : ℚ × List String :=
    if ema9 > ema21 * (1002/1000) then (20, ["EMA9 > EMA21"])
    else if ema9 < ema21 * (998/1000) then (-20, [])
    else (0, [])
  let (s2, r2) : ℚ × List String :=
    if ma20 > ma50 * (1005/1000) then (25, ["MA20 > MA50 多头"])
    else if ma20 < ma50 * (995/1000) then (-25, ["MA20 < MA50 空头"])
    else (0, [])
  let above_count : ℕ :=
    (if price > ma20 then 1 else 0) + (if price > ma50 then 1 else 0)
      + (if price > ema21 then 1 else 0)
  let s3 : ℚ :=
    if above_count = 3 then 20 else if above_count = 0 then -20 else 0
  let macd_hist := ind.macd_hist.getD 0
  let macd := ind.macd.getD 0
  let sig := ind.macd_signal.getD 0
  let (s4, r4) : ℚ × List String :=
    if macd_hist > 0 ∧ macd > sig then (25, ["MACD金叉"])
    else if macd_hist < 0 ∧ macd < sig then (-25, ["MACD死叉"])
    else (0, [])
  let adx := ind.adx.getD 20
  let di_plus := ind.di_plus.getD 0
  let di_minus := ind.di_minus.getD 0
  let (s5, r5) : ℚ × List String :=
    if adx > 25 then
      if di_plus > di_minus * (12/10) then
        (20, ["ADX=" ++ fmtFixed 0 adx ++ " 强多"])
      else if di_minus > di_plus * (12/10) then
        (-20, ["ADX=" ++ fmtFixed 0 adx ++ " 强空"])
      else (0, [])
    else (0, [])
  { score := max (-100) (min 100 (s1 + s2 + s3 + s4 + s5)),
    reasons := r1 ++ r2 ++ r4 ++ r5 }

/-- `TradingStrategy._volume_signal`. -/
def volumeSignal (ind : Snapshot) : SubScore :=
  let vol_ratio := ind.volume_ratio.getD 1
  let obv_change := ind.obv_change.getD 0
  let (s1, r1) : ℚ × List String :=
    if vol_ratio > 5/2 then (30, ["放量 " ++ fmtFixed 1 vol_ratio ++ "x"])
    else if vol_ratio > 9/5 then (20, [])
    else if vol_ratio > 13/10 then (10, [])
    else if vol_ratio < 1/2 then (-15, [])
    else (0, [])
  let s2 : ℚ := if obv_change > 0 then 15 else -15
  { score := max (-50) (min 50 (s1 + s2)), reasons := r1 }

/-- `TradingStrategy._market_structure`. -/
def marketStructure (ind : Snapshot) (price : ℚ) : SubScore :=
  let s1 := ind.s1.getD 0
  let r1 := ind.r1.getD 0
  let (a1, ra1) : ℚ × List String :=
    if s1 > 0 then
      let dist_s1 := (price - s1) / s1 * 100
      if 0 < dist_s1 ∧ dist_s1 < 8/10 then (25, ["接近S1支撑"])
      else if -(3/10) < dist_s1 ∧ dist_s1 ≤ 0 then (35, ["触及S1支撑"])
      else (0, [])
    else (0, [])
  let (a2, ra2) : ℚ × List String :=
    if r1 > 0 then
      let dist_r1 := (price - r1) / r1 * 100
      if -(8/10) < dist_r1 ∧ dist_r1 < 0 then (-25, ["接近R1阻力"])
      else if 0 ≤ dist_r1 ∧ dist_r1 < 3/10 then (-35, ["触及R1阻力"])
      else (0, [])
    else (0, [])
  let fib_382 := ind.fib_382.getD 0
  let fib_618 := ind.fib_618.getD 0
  let (a3, ra3) : ℚ × List String :=
    if fib_382 > 0 ∧ fib_618 > 0 then
      if |price - fib_382| / fib_382 < 5/1000 then (20, ["斐波那契38.2%"])
      else if |price - fib_618| / fib_618 < 5/1000 then (25, ["斐波那契61.8%"])
      else (0, [])
    else (0, [])
  { score := max (-60) (min 60 (a1 + a2 + a3)), reasons := ra1 ++ ra2 ++ ra3 }

/-- `TradingStrategy._get_signal_type`. -/
def getSignalType (score : ℚ) : SignalType :=
  if score ≥ 45 then .STRONG_BUY
  else if score ≥ 28 then .BUY
  else if score ≤ -45 then .STRONG_SELL
  else if score ≤ -28 then .SELL
  else .NEUTRAL

/-- `TradingStrategy.analyze` (strategy.py, the V5 strategy).  `now` is the
wall-clock string the source obtains from `datetime.now()`. -/
def analyze (cfg : StratCfg) (ind : Snapshot) (tf now : String) :
    Option TradeSignal :=
  match ind.price with
  | none => none
  | some price =>
    let atr := ind.atr.getD (price * (1/100))
    let atr_pct := atr / price * 100
    if atr_pct > 5 ∨ atr_pct < 3/10 then none
    else
      let market_state := getMarketState ind
      let mean_rev := meanReversionSignal ind
      let trend := trendSignal ind price
      let volume := volumeSignal ind
      let struct_s := marketStructure ind price
      let (total_score, r0) : ℚ × List String :=
        if market_state = "trending" then
          (trend.score * (1/2) + struct_s.score * (1/4)
            + volume.score * (1/4), ["📈 趋势市场"])
        else if market_state = "ranging" then
          (mean_rev.score * (1/2) + struct_s.score * (1/4)
            + volume.score * (1/4), ["📊 震荡市场"])
        else
          ((trend.score + mean_rev.score) * (35/100)
            + struct_s.score * (15/100) + volume.score * (15/100),
            ["⚖️ 混合市场"])
      let reasons := r0 ++ trend.reasons ++ mean_rev.reasons
        ++ volume.reasons ++ struct_s.reasons
      let ma50 := ind.ma_50.getD price
      let ma200 := ind.ma_200.getD price
      if ma200 > 0 ∧ ((ma50 > ma200 * (102/100) ∧ total_score < -20)
          ∨ (ma50 < ma200 * (98/100) ∧ total_score > 20)) then none
      else
        let threshold := cfg.signal_threshold.getD 28
        if |total_score| < threshold then none
        else
          let sigty := getSignalType total_score
          if sigty = SignalType.NEUTRAL then none
          else
            let (stop_loss, take_profit) : ℚ × ℚ :=
              if total_score > 0 then
                (price - atr * (28/10), price + atr * (16/10))
              else
                (price + atr * (28/10), price - atr * (16/10))
            some { signal_type := sigty,
                   strength := min 100 (ratTrunc total_score).natAbs,
                   price := price,
                   entry_price := price,
                   stop_loss := round2 stop_loss,
                   take_profit := round2 take_profit,
                   reasons := reasons,
                   timeframe := tf,
                   timestamp := now }

end Trading

namespace Overnight

/-- `OvernightStrategy._mean_reversion_signal` (the `__init__` parameters
`rsi_oversold = 30`, `rsi_overbought = 75` are inlined). -/
def meanReversionSignal (ind : Snapshot) : SubScore :=
  let rsi := ind.rsi.getD 50
  let (s1, r1) : ℚ × List String :=
    if rsi < 30 then (45, ["RSI=" ++ fmtFixed 0 rsi ++ " 深度超卖"])
    else if rsi < 30 + 10 then (30, ["RSI=" ++ fmtFixed 0 rsi ++ " 超卖"])
    else if rsi > 75 then (-45, ["RSI=" ++ fmtFixed 0 rsi ++ " 深度超买"])
    else if rsi > 75 - 10 then (-30, ["RSI=" ++ fmtFixed 0 rsi ++ " 超买"])
    else (0, [])
  let bb_pband := ind.bb_pband.getD (1/2)
  let (s2, r2) : ℚ × List String :=
    if bb_pband < 0 then (40, ["跌破布林带下轨"])
    else if bb_pband < 15/100 then (25, ["接近布林带下轨"])
    else if bb_pband > 1 then (-40, ["突破布林带上轨"])
    else if bb_pband > 85/100 then (-25, ["接近布林带上轨"])
    else (0, [])
  let k := ind.stoch_k.getD 50
  let d := ind.stoch_d.getD 50
  let (s3, r3) : ℚ × List String :=
    if k < 20 ∧ d < 25 then
      (30, if k > d then ["随机指标超卖金叉"] else [])
    else if k > 80 ∧ d > 75 then
      (-30, if k < d then ["随机指标超买死叉"] else [])
    else (0, [])
  { score := max (-100) (min 100 (s1 + s2 + s3)), reasons := r1 ++ r2 ++ r3 }

/-- `OvernightStrategy._market_structure`. -/
def marketStructure (ind : Snapshot) (price : ℚ) : SubScore :=
  let s1 := ind.s1.getD 0
  let r1 := ind.r1.getD 0
  let (a1, ra1) : ℚ × List String :=
    if s1 > 0 then
      let dist_s1 := (price - s1) / s1 * 100
      if 0 < dist_s1 ∧ dist_s1 < 1 then
        (35, ["接近支撑位S1 $" ++ fmtFixed 2 s1])
      else if -(1/2) < dist_s1 ∧ dist_s1 ≤ 0 then
        (45, ["触及支撑位S1 $" ++ fmtFixed 2 s1])
      else (0, [])
    else (0, [])
  let (a2, ra2) : ℚ × List String :=
    if r1 > 0 then
      let dist_r1 := (price - r1) / r1 * 100
      if -1 < dist_r1 ∧ dist_r1 < 0 then
        (-35, ["接近阻力位R1 $" ++ fmtFixed 2 r1])
      else if 0 ≤ dist_r1 ∧ dist_r1 < 1/2 then
        (-45, ["触及阻力位R1 $" ++ fmtFixed 2 r1])
      else (0, [])
    else (0, [])
  let fib_382 := ind.fib_382.getD 0
  let fib_618 := ind.fib_618.getD 0
  let (a3, ra3) : ℚ × List String :=
    if fib_618 > 0 ∧ |price - fib_618| / fib_618 < 8/1000 then
      (25, ["斐波那契61.8%回撤位"])
    else if fib_382 > 0 ∧ |price - fib_382| / fib_382 < 8/1000 then
      (20, ["斐波那契38.2%回撤位"])
    else (0, [])
  { score := max (-80) (min 80 (a1 + a2 + a3)), reasons := ra1 ++ ra2 ++ ra3 }

/-- `OvernightStrategy._momentum_signal`. -/
def momentumSignal (ind : Snapshot) : SubScore :=
  let macd_hist := ind.macd_hist.getD 0
  let s1 : ℚ := if macd_hist > 0 then 15 else -15
  let vol_ratio := ind.volume_ratio.getD 1
  let s2 : ℚ :=
    if vol_ratio > 3/2 then 10 else if vol_ratio < 6/10 then -10 else 0
  { score := max (-30) (min 30 (s1 + s2)), reasons := [] }

/-- `OvernightStrategy._get_signal_type`. -/
def getSignalType (score : ℚ) : SignalType :=
  if score ≥ 50 then .STRONG_BUY
  else if score ≥ 30 then .BUY
  else if score ≤ -50 then .STRONG_SELL
  else if score ≤ -30 then .SELL
  else .NEUTRAL

/-- The `score > 0` (long) branch of
`OvernightStrategy._calculate_dynamic_levels`, over the key levels the
method extracted from the snapshot just before. -/
def calcLongLevels (s1 r1 bb_lower bb_middle bb_upper price atr : ℚ) :
    ℚ × ℚ :=
  let default_sl_dist := atr * (8/10)
  let default_tp_dist := atr * (15/10)
  let sl_candidates := [price - default_sl_dist]
    ++ (if s1 > 0 ∧ s1 < price then [s1 - atr * (1/10)] else [])
    ++ (if bb_lower > 0 ∧ bb_lower < price then [bb_lower - atr * (1/10)]
        else [])
  let valid_sls := sl_candidates.filter (fun sl => price - sl ≥ atr * (1/2))
  let stop_loss := pyMax valid_sls (price - default_sl_dist)
  let tp_candidates := [price + default_tp_dist]
    ++ (if r1 > 0 ∧ r1 > price then [r1 - atr * (5/100)] else [])
    ++ (if bb_middle > price then [bb_middle] else [])
    ++ (if bb_upper > price then [bb_upper - atr * (1/10)] else [])
  let min_tp := price + (price - stop_loss) * 1
  let valid_tps := tp_candidates.filter (fun tp => tp ≥ min_tp)
  let take_profit := pyMin valid_tps (price + default_tp_dist)
  (round2 stop_loss, round2 take_profit)

/-- The short branch of `OvernightStrategy._calculate_dynamic_levels`. -/
def calcShortLevels (s1 r1 bb_lower bb_middle bb_upper price atr : ℚ) :
    ℚ × ℚ :=
  let default_sl_dist := atr * (8/10)
  let default_tp_dist := atr * (15/10)
  let sl_candidates := [price + default_sl_dist]
    ++ (if r1 > 0 ∧ r1 > price then [r1 + atr * (1/10)] else [])
    ++ (if bb_upper > 0 ∧ bb_upper > price then [bb_upper + atr * (1/10)]
        else [])
  let valid_sls := sl_candidates.filter (fun sl => sl - price ≥ atr * (1/2))
  let stop_loss := pyMin valid_sls (price + default_sl_dist)
  let tp_candidates := [price - default_tp_dist]
    ++ (if s1 > 0 ∧ s1 < price then [s1 + atr * (5/100)] else [])
    ++ (if bb_middle < price then [bb_middle] else [])
    ++ (if bb_lower < price then [bb_lower + atr * (1/10)] else [])
  let min_tp := price - (stop_loss - price) * 1
  let valid_tps := tp_candidates.filter (fun tp => tp ≤ min_tp)
  let take_profit := pyMax valid_tps (price - default_tp_dist)
  (round2 stop_loss, round2 take_profit)

/-- `OvernightStrategy._calculate_dynamic_levels` (`sl_mult = 0.8`,
`tp_mult = 1.5` from `__init__`; the source also reads `s2`/`r2` but never
uses them). Returns `(round(stop_loss, 2), round(take_profit, 2))`. -/
def calcDynamicLevels (ind : Snapshot) (score price atr : ℚ) : ℚ × ℚ :=
  let s1 := ind.s1.getD 0
  let r1 := ind.r1.getD 0
  let bb_lower := ind.bb_lower.getD (price - atr * 2)
  let bb_upper := ind.bb_upper.getD (price + atr * 2)
  let bb_middle := ind.bb_middle.getD price
  if score > 0 then
    calcLongLevels s1 r1 bb_lower bb_middle bb_upper price atr
  else
    calcShortLevels s1 r1 bb_lower bb_middle bb_upper price atr

/-- `OvernightStrategy.analyze` (strategy_overnight.py). -/
def analyze (cfg : StratCfg) (ind : Snapshot) (tf now : String) :
    Option TradeSignal :=
  match ind.price with
  | none => none
  | some price =>
    let atr := ind.atr.getD (price * (1/100))
    let atr_pct := atr / price * 100
    if atr_pct > 3 ∨ atr_pct < 2/10 then none
    else
      let mean_rev := meanReversionSignal ind
      let struct_s := marketStructure ind price
      let momentum := momentumSignal ind
      let total_score := mean_rev.score * (1/2) + struct_s.score * (3/10)
        + momentum.score * (2/10)
      let reasons := ["📊 均值回归策略"] ++ mean_rev.reasons
        ++ struct_s.reasons ++ momentum.reasons
      let threshold := cfg.signal_threshold.getD 50
      if |total_score| < threshold then none
      else
        let sigty := getSignalType total_score
        if sigty = SignalType.NEUTRAL then none
        else
          let (stop_loss, take_profit) :=
            calcDynamicLevels ind total_score price atr
          some { signal_type := sigty,
                 strength := min 100 (ratTrunc total_score).natAbs,
                 price := price,
                 entry_price := price,
                 stop_loss := round2 stop_loss,
                 take_profit := round2 take_profit,
                 reasons := reasons,
                 timeframe := tf,
                 timestamp := now }

end Overnight

namespace Trend

/-- `TrendStrategy._get_main_trend` (`adx_threshold = 30` inlined). -/
def getMainTrend (ind : Snapshot) (price : ℚ) : String :=
  let ma20 := ind.ma_20.getD price
  let ma50 := ind.ma_50.getD price
  let ema9 := ind.ema_9.getD price
  let ema21 := ind.ema_21.getD price
  let adx := ind.adx.getD 20
  let di_plus := ind.di_plus.getD 0
  let di_minus := ind.di_minus.getD 0
  if adx < 30 then "neutral"
  else
    let up_count : ℕ :=
      (if price > ma20 then 1 else 0) + (if price > ma50 then 1 else 0)
        + (if ema9 > ema21 then 1 else 0) + (if ma20 > ma50 then 1 else 0)
        + (if di_plus > di_minus then 1 else 0)
    let down_count : ℕ :=
      (if price > ma20 then 0 else 1) + (if price > ma50 then 0 else 1)
        + (if ema9 > ema21 then 0 else 1) + (if ma20 > ma50 then 0 else 1)
        + (if di_plus > di_minus then 0 else 1)
    if up_count ≥ 4 then "up"
    else if down_count ≥ 4 then "down"
    else "neutral"

/-- `TrendStrategy._check_pullback_entry` (`rsi_pullback_low = 30`,
`rsi_pullback_high = 50` inlined); `valid` is `|score| >= 45`. -/
def checkPullbackEntry (ind : Snapshot) (price : ℚ) (trend : String) :
    Bool × ℚ × List String :=
  let rsi := ind.rsi.getD 50
  let bb_pband := ind.bb_pband.getD (1/2)
  let ema21 := ind.ema_21.getD price
  let k := ind.stoch_k.getD 50
  if trend = "up" then
    let (s1, r1) : ℚ × List String :=
      if 30 ≤ rsi ∧ rsi ≤ 50 then (30, ["RSI回调至" ++ fmtFixed 0 rsi])
      else (0, [])
    let (s2, r2) : ℚ × List String :=
      if 3/10 ≤ bb_pband ∧ bb_pband ≤ 1/2 then (25, ["回调至布林中下轨"])
      else (0, [])
    let (s3, r3) : ℚ × List String :=
      if |price - ema21| / ema21 < 8/1000 then (25, ["回调至EMA21"])
      else (0, [])
    let (s4, r4) : ℚ × List String :=
      if 25 ≤ k ∧ k ≤ 45 then (20, ["KD回调"]) else (0, [])
    let score := s1 + s2 + s3 + s4
    (decide (|score| ≥ 45), score, r1 ++ r2 ++ r3 ++ r4)
  else
    let (s1, r1) : ℚ × List String :=
      if 50 ≤ rsi ∧ rsi ≤ 70 then (-30, ["RSI反弹至" ++ fmtFixed 0 rsi])
      else (0, [])
    let (s2, r2) : ℚ × List String :=
      if 1/2 ≤ bb_pband ∧ bb_pband ≤ 7/10 then (-25, ["反弹至布林中上轨"])
      else (0, [])
    let (s3, r3) : ℚ × List String :=
      if |price - ema21| / ema21 < 8/1000 then (-25, ["反弹至EMA21"])
      else (0, [])
    let (s4, r4) : ℚ × List String :=
      if 55 ≤ k ∧ k ≤ 75 then (-20, ["KD反弹"]) else (0, [])
    let score := s1 + s2 + s3 + s4
    (decide (|score| ≥ 45), score, r1 ++ r2 ++ r3 ++ r4)

/-- `TrendStrategy._check_momentum`. -/
def checkMomentum (ind : Snapshot) (trend : String) : Bool :=
  let macd_hist := ind.macd_hist.getD 0
  let di_plus := ind.di_plus.getD 0
  let di_minus := ind.di_minus.getD 0
  if trend = "up" then decide (macd_hist > 0 ∧ di_plus > di_minus)
  else decide (macd_hist < 0 ∧ di_minus > di_plus)

/-- `TrendStrategy._check_safe_entry`. -/
def checkSafeEntry (ind : Snapshot) (price : ℚ) (trend : String) : Bool :=
  let s1 := ind.s1.getD 0
  let r1 := ind.r1.getD 0
  let bb_lower := ind.bb_lower.getD 0
  let bb_upper := ind.bb_upper.getD 0
  let rsi := ind.rsi.getD 50
  if trend = "up" then
    if s1 > 0 ∧ (price - s1) / price * 100 < 3/2 then true
    else if bb_lower > 0 ∧ (price - bb_lower) / price * 100 < 2 then true
    else decide (rsi < 40)
  else
    if r1 > 0 ∧ (r1 - price) / price * 100 < 3/2 then true
    else if bb_upper > 0 ∧ (bb_upper - price) / price * 100 < 2 then true
    else decide (rsi > 60)

/-- `TrendStrategy._get_signal_type`. -/
def getSignalType (score : ℚ) : SignalType :=
  if score ≥ 70 then .STRONG_BUY
  else if score ≥ 60 then .BUY
  else if score ≤ -70 then .STRONG_SELL
  else if score ≤ -60 then .SELL
  else .NEUTRAL

/-- `TrendStrategy.analyze` (strategy_trend.py V4; `entry_threshold = 60`,
`sl_mult = 1.2`, `tp_mult = 2.0`, `max_atr_pct = 3.0` from `__init__`). -/
def analyze (ind : Snapshot) (tf now : String) : Option TradeSignal :=
  match ind.price with
  | none => none
  | some price =>
    let atr := ind.atr.getD (price * (1/100))
    let atr_pct := atr / price * 100
    if atr_pct > 3 then none
    else if atr_pct < 3/10 then none
    else
      let trend := getMainTrend ind price
      if trend = "neutral" then none
      else
        let entry_signal := checkPullbackEntry ind price trend
        if ¬ entry_signal.1 then none
        else if ¬ checkMomentum ind trend then none
        else if ¬ checkSafeEntry ind price trend then none
        else
          let total_score := entry_signal.2.1
          let reasons := ["📈 趋势跟踪V4", "ATR=" ++ fmtFixed 1 atr_pct ++ "%"]
            ++ (if trend = "up" then ["🟢 上涨趋势"] else ["🔴 下跌趋势"])
            ++ entry_signal.2.2
          if |total_score| < 60 then none
          else
            let sigty := getSignalType total_score
            if sigty = SignalType.NEUTRAL then none
            else
              let (stop_loss, take_profit) : ℚ × ℚ :=
                if total_score > 0 then
                  (price - atr * (12/10), price + atr * 2)
                else
                  (price + atr * (12/10), price - atr * 2)
              some { signal_type := sigty,
                     strength := min 100 (ratTrunc total_score).natAbs,
                     price := price,
                     entry_price := price,
                     stop_loss := round2 stop_loss,
                     take_profit := round2 take_profit,
                     reasons := reasons,
                     timeframe := tf,
                     timestamp := now }

end Trend

/-! ## The simulation engine of `backtest.py` (`Backtester.run_backtest`) -/

/-- One OHLCV bar.  `time` is the simulated bar timestamp in hours (the
DataFrame index); the engine reads only `high`, `low`, `close` and the
index, so `open`/`volume` are not modelled. -/
structure Bar where
  time : ℚ
  high : ℚ
  low : ℚ
  close : ℚ
deriving DecidableEq, Repr

instance : Inhabited Bar := ⟨⟨0, 0, 0, 0⟩⟩

/-- The `Trade` dataclass of backtest.py.  `signal_type` is always set at
open, so it is not optional here; times are rationals (hours). -/
structure Trade where
  entry_time : ℚ
  entry_price : ℚ
  exit_time : Option ℚ := none
  exit_price : Option ℚ := none
  signal_type : SignalType
  stop_loss : ℚ := 0
  take_profit : ℚ := 0
  trailing_stop : ℚ := 0
  trailing_activation : ℚ := 8/1000
  trailing_stop_pct : ℚ := 15/1000
  highest_price : ℚ := 0
  lowest_price : ℚ := 0
  pnl : ℚ := 0
  pnl_pct : ℚ := 0
  exit_reason : String := ""
  position_size : ℚ := 1
deriving DecidableEq, Repr

/-- One row of the equity curve. -/
structure EquityPoint where
  time : ℚ
  equity : ℚ
  price : ℚ
deriving DecidableEq, Repr

/-- The per-run mutable state of `Backtester.run_backtest` (local `position`,
`capital`, `equity_curve` plus the instance fields `consecutive_losses`,
`cooldown_bars`, `trades`). -/
structure BtState where
  position : Option Trade := none
  capital : ℚ := 10000
  consecutive_losses : ℕ := 0
  cooldown_bars : ℕ := 0
  trades : List Trade := []
  equity : List EquityPoint := []
deriving DecidableEq, Repr

/-- The per-bar stop/target exit check of `Backtester.run_backtest`
(backtest.py lines 103-116): for a long the stop is tested before the
target against the bar's low/high; symmetric for a short.  Returns the
exit price and `exit_reason` ("止损" = stop_loss, "止盈" = take_profit). -/
def checkExit (pos : Trade) (bar : Bar) : Option (ℚ × String) :=
  if isBuyType pos.signal_type then
    if bar.low ≤ pos.stop_loss then some (pos.stop_loss, "止损")
    else if bar.high ≥ pos.take_profit then some (pos.take_profit, "止盈")
    else none
  else
    if bar.high ≥ pos.stop_loss then some (pos.stop_loss, "止损")
    else if bar.low ≤ pos.take_profit then some (pos.take_profit, "止盈")
    else none

/-- Signed raw price-return of a close (backtest.py lines 123-126). -/
def rawTradePnlPct (pos : Trade) (exit_price : ℚ) : ℚ :=
  if isBuyType pos.signal_type then
    (exit_price - pos.entry_price) / pos.entry_price
  else
    (pos.entry_price - exit_price) / pos.entry_price

/-- Realized pnl of an in-loop close:
`capital * position_size * pnl_pct` (backtest.py line 128). -/
def closePnl (capital : ℚ) (pos : Trade) (exit_price : ℚ) : ℚ :=
  capital * pos.position_size * rawTradePnlPct pos exit_price

/-- The check-entry step (backtest.py lines 147-175): on a non-NEUTRAL
signal, open a position sized by signal strength, halved after 2
consecutive losses.  (`getattr(signal, 'trailing_activation', 0.008)`
always takes the default since `TradeSignal` has no such attribute.) -/
def openPosition (st : BtState) (current_time current_price : ℚ)
    (sigOpt : Option TradeSignal) : BtState :=
  match sigOpt with
  | none => st
  | some signal =>
    if signal.signal_type ≠ SignalType.NEUTRAL then
      let base_size : ℚ :=
        if signal.strength ≥ 50 then 1
        else if signal.strength ≥ 40 then 8/10
        else 6/10
      let base_size :=
        if st.consecutive_losses ≥ 2 then base_size * (1/2) else base_size
      { st with position := some {
          entry_time := current_time,
          entry_price := current_price,
          signal_type := signal.signal_type,
          stop_loss := signal.stop_loss,
          take_profit := signal.take_profit,
          trailing_activation := 8/1000,
          trailing_stop_pct := 15/1000,
          highest_price := current_price,
          lowest_price := current_price,
          position_size := base_size } }
    else st

/-- One iteration of the bar loop of `Backtester.run_backtest`, in the
source's fixed order: check-exit, cooldown tick, check-entry, record
equity.  A bar whose indicator snapshot is missing is skipped entirely
(`if not indicators: continue`). -/
def stepBar (indFn : ℕ → Option Snapshot)
    (strat : Snapshot → Option TradeSignal) (st : BtState)
    (p : ℕ × Bar) : BtState :=
  match indFn p.1 with
  | none => st
  | some snap =>
    let bar := p.2
    let current_time := bar.time
    let current_price := bar.close
    let st1 : BtState :=
      match st.position with
      | none => st
      | some pos =>
        match checkExit pos bar with
        | none => st
        | some (exit_price, exit_reason) =>
          let pnl_pct := rawTradePnlPct pos exit_price
          let pnl := closePnl st.capital pos exit_price
          let closed := { pos with
            exit_time := some current_time,
            exit_price := some exit_price,
            exit_reason := exit_reason,
            pnl_pct := pnl_pct,
            pnl := pnl }
          let losses :=
            if pnl < 0 then st.consecutive_losses + 1 else 0
          let cooldown :=
            if pnl < 0 ∧ st.consecutive_losses + 1 ≥ 3 then 5
            else st.cooldown_bars
          { st with
            capital := st.capital + pnl,
            consecutive_losses := losses,
            cooldown_bars := cooldown,
            trades := st.trades ++ [closed],
            position := none }
    let st2 : BtState :=
      if st1.cooldown_bars > 0 then
        { st1 with cooldown_bars := st1.cooldown_bars - 1 }
      else st1
    let st3 : BtState :=
      if st2.position.isNone ∧ st2.cooldown_bars = 0 then
        openPosition st2 current_time current_price (strat snap)
      else st2
    let current_equity :=
      match st3.position with
      | some pos =>
        if isBuyType pos.signal_type then
          st3.capital
            + st3.capital * (current_price - pos.entry_price) / pos.entry_price
        else
          st3.capital
            + st3.capital * (pos.entry_price - current_price) / pos.entry_price
      | none => st3.capital
    { st3 with
      equity := st3.equity ++ [⟨current_time, current_equity, current_price⟩] }

/-- Fresh engine state (`initial_capital = 10000`). -/
def initState : BtState := {}

/-- The bar loop `for i in range(50, len(df))`. -/
def runLoop (indFn : ℕ → Option Snapshot)
    (strat : Snapshot → Option TradeSignal) (df : List Bar) : BtState :=
  (df.enum.drop 50).foldl (stepBar indFn strat) initState

/-- The forced terminal close (backtest.py lines 192-205): exit at the final
bar's close with reason "回测结束" (backtest-end); its pnl is
`capital * pnl_pct` — the `position_size` factor is NOT applied here,
unlike the in-loop `closePnl`. -/
def forcedCloseTrade (capital : ℚ) (pos : Trade) (lastBar : Bar) : Trade :=
  let pnl_pct := rawTradePnlPct pos lastBar.close
  { pos with
    exit_time := some lastBar.time,
    exit_price := some lastBar.close,
    exit_reason := "回测结束",
    pnl_pct := pnl_pct,
    pnl := capital * pnl_pct }

/-- Post-loop forced close of any still-open position. -/
def finalize (st : BtState) (df : List Bar) : BtState :=
  match st.position with
  | none => st
  | some pos =>
    let closed := forcedCloseTrade st.capital pos (df.getLastD default)
    { st with
      capital := st.capital + closed.pnl,
      trades := st.trades ++ [closed] }

/-! ## The performance aggregator `Backtester._calculate_stats` -/

/-- Profit factor: a rational, or the `float('inf')` sentinel produced when
there are no losing trades. -/
inductive PF where
  | finite (q : ℚ)
  | infinite
deriving DecidableEq, Repr, Inhabited

/-- `np.mean` over a rational list (0 whenever the source guards against an
empty list before calling it). -/
def qMean (l : List ℚ) : ℚ := l.sum / l.length

/-- Per-row drawdown `(equity - running_peak) / running_peak` where the
running peak is the cumulative maximum (`cummax`). -/
def drawdownList : List ℚ → List ℚ
  | [] => []
  | e :: rest => go e (e :: rest)
where
  go (peak : ℚ) : List ℚ → List ℚ
    | [] => []
    | e :: rest =>
      let peak := max peak e
      (e - peak) / peak :: go peak rest

/-- The statistics record the aggregator returns for a non-empty trade log.
`sharpe_ratio` is omitted: its value is `mean/std * √8760`, irrational in
general, and no statement below concerns it. -/
structure BtStats where
  initial_capital : ℚ
  final_capital : ℚ
  total_return : ℚ
  buy_hold_return : ℚ
  total_trades : ℕ
  winning_trades : ℕ
  losing_trades : ℕ
  win_rate : ℚ
  profit_factor : PF
  avg_win : ℚ
  avg_loss : ℚ
  max_drawdown : ℚ
  trades_per_day : ℚ
  avg_duration : ℚ
  min_duration : ℚ
  max_duration : ℚ
  dist_short : ℕ
  dist_medium : ℕ
  dist_long : ℕ
  dist_short_pct : ℚ
  dist_medium_pct : ℚ
  dist_long_pct : ℚ
  trades : List Trade
deriving DecidableEq, Repr, Inhabited

/-- Result of `_calculate_stats`: the distinct `{'error': '没有产生任何交易'}`
outcome for an empty trade log, or the numeric report. -/
inductive StatsOutcome where
  | noTrades
  | report (s : BtStats)
deriving DecidableEq, Repr

/-- `Backtester._calculate_stats` (backtest.py lines 209-299); the trade log
(`self.trades` in the source) is passed explicitly. -/
def calcStats (final_capital : ℚ) (trades : List Trade)
    (equity_curve : List EquityPoint) (df : List Bar) : StatsOutcome :=
  if trades = [] then .noTrades
  else
    let total_trades := trades.length
    let winning_trades := trades.filter (fun t => t.pnl > 0)
    let losing_trades := trades.filter (fun t => t.pnl < 0)
    let win_rate : ℚ :=
      if total_trades > 0 then
        (winning_trades.length : ℚ) / total_trades * 100
      else 0
    let total_profit := (winning_trades.map (fun t => t.pnl)).sum
    let total_loss := |(losing_trades.map (fun t => t.pnl)).sum|
    let profit_factor : PF :=
      if total_loss > 0 then .finite (round2 (total_profit / total_loss))
      else .infinite
    let avg_win : ℚ :=
      if winning_trades ≠ [] then
        qMean (winning_trades.map (fun t => t.pnl_pct)) * 100
      else 0
    let avg_loss : ℚ :=
      if losing_trades ≠ [] then
        qMean (losing_trades.map (fun t => t.pnl_pct)) * 100
      else 0
    let max_drawdown :=
      ((drawdownList (equity_curve.map (fun e => e.equity))).min?).getD 0 * 100
    let total_return := (final_capital - 10000) / 10000 * 100
    let bar50 := df.getD 50 default
    let lastBar := df.getLastD default
    let buy_hold_return := (lastBar.close - bar50.close) / bar50.close * 100
    let total_days : ℤ := ⌊(lastBar.time - bar50.time) / 24⌋
    let trades_per_day : ℚ :=
      if total_days > 0 then (total_trades : ℚ) / (total_days : ℚ) else 0
    let durations := trades.filterMap
      (fun t => t.exit_time.map (fun et => et - t.entry_time))
    let avg_duration := if durations ≠ [] then qMean durations else 0
    let min_duration := (durations.min?).getD 0
    let max_duration := (durations.max?).getD 0
    let short_trades := (durations.filter (fun d => d < 6)).length
    let medium_trades := (durations.filter (fun d => 6 ≤ d ∧ d < 24)).length
    let long_trades := (durations.filter (fun d => d ≥ 24)).length
    .report {
      initial_capital := 10000,
      final_capital := round2 final_capital,
      total_return := round2 total_return,
      buy_hold_return := round2 buy_hold_return,
      total_trades := total_trades,
      winning_trades := winning_trades.length,
      losing_trades := losing_trades.length,
      win_rate := round2 win_rate,
      profit_factor := profit_factor,
      avg_win := round2 avg_win,
      avg_loss := round2 avg_loss,
      max_drawdown := round2 max_drawdown,
      trades_per_day := round2 trades_per_day,
      avg_duration := round1 avg_duration,
      min_duration := round1 min_duration,
      max_duration := round1 max_duration,
      dist_short := short_trades,
      dist_medium := medium_trades,
      dist_long := long_trades,
      dist_short_pct :=
        if durations ≠ [] then
          (short_trades : ℚ) / durations.length * 100
        else 0,
      dist_medium_pct :=
        if durations ≠ [] then
          (medium_trades : ℚ) / durations.length * 100
        else 0,
      dist_long_pct :=
        if durations ≠ [] then
          (long_trades : ℚ) / durations.length * 100
        else 0,
      trades := trades }

/-- `Backtester.run_backtest`: `none` models the early empty-dict return for
fewer than 100 bars; otherwise the loop runs from bar 50, any open position
is force-closed, and `_calculate_stats` is applied. -/
def runBacktest (indFn : ℕ → Option Snapshot)
    (strat : Snapshot → Option TradeSignal) (df : List Bar) :
    Option StatsOutcome :=
  if df.length < 100 then none
  else
    let st := finalize (runLoop indFn strat df) df
    some (calcStats st.capital st.trades st.equity df)

/-- Projection: the trade log inside a backtest result (empty for the
degenerate outcomes). -/
def statsTrades : Option StatsOutcome → List Trade
  | some (.report s) => s.trades
  | _ => []

/-! ## Leveraged engines: close step of `backtest_all.backtest_strategy`
and of `compare_strategies.run_backtest` -/

namespace BTAll

/-- Signed raw price-return (backtest_all.py lines 59-62);
`direction` is the `'long'`/`'short'` string the source stores. -/
def rawPnlPct (direction : String) (entry_price exit_price : ℚ) : ℚ :=
  if direction = "long" then (exit_price - entry_price) / entry_price
  else (entry_price - exit_price) / entry_price

/-- The close computation of `backtest_all.backtest_strategy`
(lines 58-70): leveraged, sized pnl with the liquidation clamp
`if pnl_pct * leverage <= -1: pnl = -capital * position_size`.
Returns `(pnl_pct_leveraged, pnl)`.  The same computation appears in
backtest_trend.py, optimize_trend.py, optimize_breakout.py,
optimize_combo.py and optimize_trend_fast.py. -/
def closePnl (direction : String)
    (entry_price exit_price capital leverage position_size : ℚ) : ℚ × ℚ :=
  let pnl_pct := rawPnlPct direction entry_price exit_price
  let pnl_pct_leveraged := pnl_pct * leverage * position_size
  let pnl := capital * pnl_pct_leveraged
  let pnl :=
    if pnl_pct * leverage ≤ -1 then -capital * position_size else pnl
  (pnl_pct_leveraged, pnl)

/-- A closed trade as recorded by `backtest_all.backtest_strategy`
(lines 73-78); `pnl_pct` holds `pnl_pct_leveraged * 100`. -/
structure AllTrade where
  pnl_pct : ℚ
  pnl : ℚ
  exit_reason : String := ""
  hold_hours : ℚ := 0
deriving DecidableEq, Repr

/-- The statistics record of `backtest_all.backtest_strategy`
(lines 128-137); `sharpe` is omitted (irrational √ factor), `name` is the
caller-chosen label. -/
structure AllStats where
  total_return : ℚ
  win_rate : ℚ
  profit_factor : PF
  max_dd : ℚ
  trades : ℕ
  avg_hold : ℚ
deriving DecidableEq, Repr

/-- The statistics tail of `backtest_all.backtest_strategy`
(lines 97-137): `None` for an empty trade list, else the numeric report.
`initial_capital = 10000` (line 24). -/
def stats (capital : ℚ) (trades : List AllTrade) : Option AllStats :=
  if trades = [] then none
  else
    let wins := trades.filter (fun t => t.pnl_pct > 0)
    let losses := trades.filter (fun t => t.pnl_pct ≤ 0)
    let total_return := (capital - 10000) / 10000 * 100
    let win_rate : ℚ :=
      if trades ≠ [] then (wins.length : ℚ) / trades.length * 100 else 0
    let lossSum := (losses.map (fun t => t.pnl_pct)).sum
    let profit_factor : PF :=
      if losses ≠ [] ∧ lossSum ≠ 0 then
        .finite |((wins.map (fun t => t.pnl_pct)).sum) / lossSum|
      else .infinite
    let avg_hold := qMean (trades.map (fun t => t.hold_hours))
    let max_dd := (trades.foldl
      (fun (acc : ℚ × ℚ × ℚ) t =>
        let equity := acc.1 + t.pnl
        let peak := max acc.2.1 equity
        (equity, peak, min acc.2.2 ((equity - peak) / peak)))
      (10000, 10000, 0)).2.2
    some { total_return := total_return,
           win_rate := win_rate,
           profit_factor := profit_factor,
           max_dd := max_dd * 100,
           trades := trades.length,
           avg_hold := avg_hold }

end BTAll

namespace Cmp

/-- The close computation of `compare_strategies.run_backtest`
(lines 56-63): leveraged, sized pnl with NO liquidation clamp.
Returns `(pnl_pct_leveraged, pnl)`. -/
def closePnl (direction : String)
    (entry_price exit_price capital leverage position_size : ℚ) : ℚ × ℚ :=
  let pnl_pct :=
    if direction = "long" then (exit_price - entry_price) / entry_price
    else (entry_price - exit_price) / entry_price
  let pnl_pct_leveraged := pnl_pct * leverage * position_size
  (pnl_pct_leveraged, capital * pnl_pct_leveraged)

/-- A closed trade as recorded by `compare_strategies.run_backtest`
(line 65). -/
structure CmpTrade where
  pnl_pct : ℚ
  pnl : ℚ
deriving DecidableEq, Repr

/-- The report of `compare_strategies.run_backtest` (lines 103-109);
its `profit_factor` is a plain number (no infinity sentinel). -/
structure CmpStats where
  total_return : ℚ
  win_rate : ℚ
  profit_factor : ℚ
  max_dd : ℚ
  trades : ℕ
deriving DecidableEq, Repr, Inhabited

/-- The statistics tail of `compare_strategies.run_backtest`
(lines 84-109): `None` for no trades; when there are no losing trades the
profit factor is the finite substitute `999`, and the reported value is
additionally capped at `99` (`min(profit_factor, 99)`). -/
def stats (capital : ℚ) (trades : List CmpTrade) : Option CmpStats :=
  if trades = [] then none
  else
    let wins := trades.filter (fun t => t.pnl_pct > 0)
    let losses := trades.filter (fun t => t.pnl_pct ≤ 0)
    let total_return := (capital - 10000) / 10000 * 100
    let win_rate : ℚ := (wins.length : ℚ) / trades.length * 100
    let lossSum := (losses.map (fun t => t.pnl_pct)).sum
    let profit_factor : ℚ :=
      if losses ≠ [] ∧ lossSum ≠ 0 then
        |((wins.map (fun t => t.pnl_pct)).sum) / lossSum|
      else 999
    let max_dd := (trades.foldl
      (fun (acc : ℚ × ℚ × ℚ) t =>
        let equity := acc.1 + t.pnl
        let peak := max acc.2.1 equity
        (equity, peak, min acc.2.2 ((equity - peak) / peak)))
      (10000, 10000, 0)).2.2
    some { total_return := total_return,
           win_rate := win_rate,
           profit_factor := min profit_factor 99,
           max_dd := max_dd * 100,
           trades := trades.length }

end Cmp

/-! ## Generic helper lemmas -/

instance : Std.Antisymm (fun a b : ℚ => a ≤ b) :=
  ⟨@fun _ _ h h2 => le_antisymm h h2⟩

theorem ratMax?_spec {l : List ℚ} {a : ℚ} :
    l.max? = some a ↔ a ∈ l ∧ ∀ b ∈ l, b ≤ a :=
  List.max?_eq_some_iff (fun _ => le_refl _) max_choice (fun _ _ _ => max_le_iff)

theorem ratMin?_spec {l : List ℚ} {a : ℚ} :
    l.min? = some a ↔ a ∈ l ∧ ∀ b ∈ l, a ≤ b :=
  List.min?_eq_some_iff (fun _ => le_refl _) min_choice (fun _ _ _ => le_min_iff)

theorem sum_neg_of_all_neg (l : List ℚ) (hne : l ≠ []) (h : ∀ x ∈ l, x < 0) :
    l.sum < 0 := by
  induction l with
  | nil => simp at hne
  | cons a t ih =>
    rcases eq_or_ne t [] with rfl | ht
    · simpa using h a (by simp)
    · have := ih ht (fun x hx => h x (by simp [hx]))
      have ha := h a (by simp)
      simp only [List.sum_cons]
      linarith

/-! ## Claim theorems -/

/-- C1 (counterexample): the claim is stated for "the simulation engine",
but the close step of `compare_strategies.run_backtest` (cited lines 55-69)
applies NO liquidation clamp: with capital 10000, leverage L = 10,
position-size fraction f = 0.1 and raw `pnl_pct = -0.15`
(`pnl_pct * L = -1.5 <= -1`), the realized loss credited is `-1500`,
not `-capital*f = -1000`, and it exceeds the capital exposed. -/
theorem c1_counterexample :
    (Cmp.closePnl "long" 100 85 10000 10 (1/10)).2 = -1500 ∧
    (Cmp.closePnl "long" 100 85 10000 10 (1/10)).2 < -(10000 * (1/10)) ∧
    BTAll.rawPnlPct "long" 100 85 * 10 ≤ -1 := by
  refine ⟨?_, ?_, ?_⟩ <;> norm_num [Cmp.closePnl, BTAll.rawPnlPct]

/-- C1 (amended): in the engines that implement the clamp
(`backtest_all.backtest_strategy` and the backtest_trend/optimize_* twins),
whenever `pnl_pct * leverage <= -1` the realized loss credited to capital
is exactly `-capital * position_size`; for nonnegative capital and size the
realized pnl never drops below `-capital * position_size`; and in the
concrete scenario L = 10, f = 0.1, raw pnl_pct = -0.15 the loss is exactly
`-capital * 0.1`.  (`compare_strategies.run_backtest` applies no clamp —
see the counterexample.) -/
theorem c1_amended :
    (∀ (direction : String) (entry_price exit_price capital leverage
        position_size : ℚ),
      BTAll.rawPnlPct direction entry_price exit_price * leverage ≤ -1 →
      (BTAll.closePnl direction entry_price exit_price capital leverage
        position_size).2 = -(capital * position_size)) ∧
    (∀ (direction : String) (entry_price exit_price capital leverage
        position_size : ℚ),
      0 ≤ capital → 0 ≤ position_size →
      (BTAll.closePnl direction entry_price exit_price capital leverage
        position_size).2 ≥ -(capital * position_size)) ∧
    (BTAll.closePnl "long" 100 85 10000 10 (1/10)).2 = -(10000 * (1/10)) := by
  refine ⟨?_, ?_, by norm_num [BTAll.closePnl, BTAll.rawPnlPct]⟩
  · intro direction entry_price exit_price capital leverage position_size h
    simp only [BTAll.closePnl, if_pos h]
    ring
  · intro direction entry_price exit_price capital leverage position_size
      hc hs
    simp only [BTAll.closePnl]
    split
    · linarith [mul_nonneg hc hs]
    · rename_i hclamp
      push_neg at hclamp
      have h1 : (-1 : ℚ) ≤ BTAll.rawPnlPct direction entry_price exit_price
          * leverage := le_of_lt hclamp
      nlinarith [mul_nonneg hc hs]

/-- Witness for C1: the clamp fires on a short liquidated at +20% adverse
move with 10x leverage, and the bound holds on a small long loss. -/
theorem c1_witness :
    (BTAll.closePnl "short" 100 120 5000 10 (1/10)).2 = -(5000 * (1/10)) ∧
    (BTAll.closePnl "long" 100 99 5000 10 (1/10)).2 ≥ -(5000 * (1/10)) :=
  ⟨c1_amended.1 "short" 100 120 5000 10 (1/10)
      (by norm_num +decide [BTAll.rawPnlPct]),
   c1_amended.2.1 "long" 100 99 5000 10 (1/10) (by norm_num) (by norm_num)⟩

/-- C2: the per-bar exit check of `Backtester.run_backtest` tests the stop
before the target in both directions — when a bar's range would trigger
both levels, the position exits at the stop price with reason 止损
(stop_loss); and in the spec's scenario (short at 100, stop 102, target 96,
bar low 95 / high 101) it exits at 96 with reason 止盈 (take_profit)
because the stop was not touched. -/
theorem c2_stop_priority :
    (∀ (pos : Trade) (bar : Bar), isBuyType pos.signal_type = true →
      bar.low ≤ pos.stop_loss → bar.high ≥ pos.take_profit →
      checkExit pos bar = some (pos.stop_loss, "止损")) ∧
    (∀ (pos : Trade) (bar : Bar), isBuyType pos.signal_type = false →
      bar.high ≥ pos.stop_loss → bar.low ≤ pos.take_profit →
      checkExit pos bar = some (pos.stop_loss, "止损")) ∧
    checkExit
      { entry_time := 0, entry_price := 100, signal_type := .SELL,
        stop_loss := 102, take_profit := 96 }
      { time := 1, high := 101, low := 95, close := 100 }
      = some (96, "止盈") := by
  refine ⟨?_, ?_, by norm_num [checkExit, isBuyType]⟩
  · intro pos bar hbuy hlow _
    simp [checkExit, hbuy, hlow]
  · intro pos bar hsell hhigh _
    simp [checkExit, hsell, hhigh]

/-- Witness for C2: a long whose bar touches both stop (98) and target
(104) exits at the stop; a short whose bar touches both exits at its
stop. -/
theorem c2_witness :
    checkExit
      { entry_time := 0, entry_price := 100, signal_type := .BUY,
        stop_loss := 98, take_profit := 104 }
      { time := 1, high := 105, low := 97, close := 100 }
      = some (98, "止损") ∧
    checkExit
      { entry_time := 0, entry_price := 100, signal_type := .SELL,
        stop_loss := 102, take_profit := 96 }
      { time := 1, high := 103, low := 95, close := 100 }
      = some (102, "止损") :=
  ⟨c2_stop_priority.1 _ _ rfl (by norm_num) (by norm_num),
   c2_stop_priority.2.1 _ _ rfl (by norm_num) (by norm_num)⟩

/-! ## Concrete run used for C3 and C10 -/

/-- A fixed BUY signal (stop 90, target 200) returned on every bar. -/
def c3Sig : TradeSignal :=
  { signal_type := .BUY, strength := 50, price := 100, entry_price := 100,
    stop_loss := 90, take_profit := 200, reasons := [], timeframe := "1h",
    timestamp := "t" }

/-- Indicator snapshots: present up to bar 58, insufficient afterwards
(`calculate_all` returning a falsy value makes the engine skip the bar). -/
def c3Ind : ℕ → Option Snapshot := fun i => if i ≤ 58 then some {} else none

/-- A strategy that emits `c3Sig` on every snapshot. -/
def c3Strat : Snapshot → Option TradeSignal := fun _ => some c3Sig

/-- 105 bars at price 100; bars 51-53 dip to 90 (hitting the stop). -/
def c3Bars : List Bar :=
  (List.range 105).map fun (i : ℕ) =>
    { time := (i : ℚ), high := 100,
      low := if i = 51 ∨ i = 52 ∨ i = 53 then 90 else 100, close := 100 }

/-- C3 (code bug): after three consecutive losing closes (exits at bars
51, 52, 53; the third close sets `cooldown_bars = 5`), the engine
decrements the counter in the same bar as the close and re-admits entries
as soon as it reaches 0 after the decrement, so a new position is opened
at bar 57 — the 4th of the "next 5 bars" after the triggering close at
bar 53 — although the claim (and the source's own comment
"连续3次亏损后冷却5根K线") requires those 5 bars to produce no entries.  The
third conjunct shows the counter already stands at 4, not 5, at the end of
the bar of the third losing close. -/
theorem c3_cooldown_bug :
    ((runLoop c3Ind c3Strat c3Bars).trades).map
        (fun t => (t.entry_time, t.exit_time, t.pnl))
      = [(50, some 51, -1000), (51, some 52, -900), (52, some 53, -405)] ∧
    ((runLoop c3Ind c3Strat c3Bars).position).map (fun t => t.entry_time)
      = some 57 ∧
    (runLoop c3Ind c3Strat (c3Bars.take 54)).cooldown_bars = 4 := by
  refine ⟨?_, ?_, ?_⟩ <;>
    norm_num +decide [runLoop, stepBar, c3Ind, c3Strat, c3Sig, c3Bars,
      checkExit, rawTradePnlPct, closePnl, openPosition, initState, isBuyType,
      List.range_succ, List.enum, List.enumFrom]

/-- C10: when the bar sequence ends with a position still open, the
engine's result appends exactly one forced close to the loop's trade log:
it exits at the final bar's close with exit_reason "回测结束" (backtest
end), and its realized pnl is `capital * pnl_pct` WITHOUT the
`position_size` fraction — unlike the in-loop close, whose pnl is
`capital * position_size * pnl_pct` (third conjunct). -/
theorem c10_forced_close :
    (∀ (indFn : ℕ → Option Snapshot) (strat : Snapshot → Option TradeSignal)
        (df : List Bar) (pos : Trade),
      100 ≤ df.length →
      (runLoop indFn strat df).position = some pos →
      statsTrades (runBacktest indFn strat df)
        = (runLoop indFn strat df).trades
          ++ [forcedCloseTrade (runLoop indFn strat df).capital pos
                (df.getLastD default)]) ∧
    (∀ (capital : ℚ) (pos : Trade) (lastBar : Bar),
      (forcedCloseTrade capital pos lastBar).exit_reason = "回测结束" ∧
      (forcedCloseTrade capital pos lastBar).exit_price = some lastBar.close ∧
      (forcedCloseTrade capital pos lastBar).exit_time = some lastBar.time ∧
      (forcedCloseTrade capital pos lastBar).pnl
        = capital * rawTradePnlPct pos lastBar.close) ∧
    (∀ (capital : ℚ) (pos : Trade) (exit_price : ℚ),
      closePnl capital pos exit_price
        = capital * pos.position_size * rawTradePnlPct pos exit_price) := by
  refine ⟨?_, fun c pos lb => ⟨rfl, rfl, rfl, rfl⟩, fun c pos xp => rfl⟩
  intro indFn strat df pos hlen hpos
  have hfin : finalize (runLoop indFn strat df) df
      = { runLoop indFn strat df with
          position := some pos,
          capital := (runLoop indFn strat df).capital
            + (forcedCloseTrade (runLoop indFn strat df).capital pos
                (df.getLastD default)).pnl,
          trades := (runLoop indFn strat df).trades
            ++ [forcedCloseTrade (runLoop indFn strat df).capital pos
                  (df.getLastD default)] } := by
    unfold finalize
    rw [hpos]
  simp only [runBacktest, if_neg (show ¬ df.length < 100 by omega), hfin]
  have hne : (runLoop indFn strat df).trades
      ++ [forcedCloseTrade (runLoop indFn strat df).capital pos
            (df.getLastD default)] ≠ [] := by simp
  unfold calcStats
  rw [if_neg hne]
  rfl

/-- Witness for C10, on the concrete `c3` run (its position opened at
bar 57 is still live when the bars run out). -/
theorem c10_witness :
    statsTrades (runBacktest c3Ind c3Strat c3Bars)
      = (runLoop c3Ind c3Strat c3Bars).trades
        ++ [forcedCloseTrade (runLoop c3Ind c3Strat c3Bars).capital
              { entry_time := 57, entry_price := 100, signal_type := .BUY,
                stop_loss := 90, take_profit := 200, highest_price := 100,
                lowest_price := 100, position_size := 1/2 }
              (c3Bars.getLastD default)] :=
  c10_forced_close.1 c3Ind c3Strat c3Bars _
    (by rw [c3Bars, List.length_map, List.length_range]; norm_num)
    (by norm_num +decide [runLoop, stepBar, c3Ind, c3Strat, c3Sig, c3Bars,
      checkExit, rawTradePnlPct, closePnl, openPosition, initState, isBuyType,
      List.range_succ, List.enum, List.enumFrom])

/-- C6: with an empty closed-trade list the aggregators return the
explicit no-trades outcome (the `{'error': ...}` dictionary in
backtest.py, `None` in backtest_all.py), and with any non-empty trade
list they return the numeric report. -/
theorem c6_no_trades :
    (∀ (final_capital : ℚ) (equity_curve : List EquityPoint) (df : List Bar),
      calcStats final_capital [] equity_curve df = .noTrades) ∧
    (∀ (final_capital : ℚ) (trades : List Trade)
        (equity_curve : List EquityPoint) (df : List Bar),
      trades ≠ [] →
      ∃ s, calcStats final_capital trades equity_curve df = .report s) ∧
    (∀ capital : ℚ, BTAll.stats capital [] = none) ∧
    (∀ (capital : ℚ) (trades : List BTAll.AllTrade), trades ≠ [] →
      (BTAll.stats capital trades).isSome = true) := by
  refine ⟨fun fc eq df => by simp [calcStats], ?_,
    fun c => by simp [BTAll.stats], ?_⟩
  · intro fc trades eq df h
    unfold calcStats
    rw [if_neg h]
    exact ⟨_, rfl⟩
  · intro c trades h
    unfold BTAll.stats
    rw [if_neg h]
    simp

/-- A single winning closed trade, for the C6/C7 witnesses. -/
def c6Trade : Trade :=
  { entry_time := 50, entry_price := 100, exit_time := some 51,
    exit_price := some 104, signal_type := .BUY, stop_loss := 98,
    take_profit := 104, pnl := 400, pnl_pct := 4/100, exit_reason := "止盈" }

/-- Witness for C6: empty log gives the no-trades outcome, a singleton log
gives a report, for both aggregators. -/
theorem c6_witness :
    calcStats 10400 ([] : List Trade) [] [] = .noTrades ∧
    calcStats 10400 [c6Trade] [] [] ≠ .noTrades ∧
    BTAll.stats 10000 [] = none ∧
    (BTAll.stats 10400 [{ pnl_pct := 4, pnl := 400 }]).isSome = true := by
  refine ⟨c6_no_trades.1 10400 [] [], ?_, c6_no_trades.2.2.1 10000,
    c6_no_trades.2.2.2 10400 _ (by simp)⟩
  obtain ⟨s, hs⟩ := c6_no_trades.2.1 10400 [c6Trade] [] [] (by simp)
  rw [hs]
  simp

/-- Extract the report from a `calcStats` outcome (junk default when there
is none). -/
def reportOf : StatsOutcome → BtStats
  | .report s => s
  | .noTrades => default

/-- Extract the report from a `Cmp.stats` outcome. -/
def cmpReportOf : Option Cmp.CmpStats → Cmp.CmpStats
  | some s => s
  | none => default

/-- C7 (counterexample): on a trade list with no losing trades, the
aggregator of `compare_strategies.run_backtest` (cited lines 92-107) does
NOT report an unbounded sentinel: it substitutes 999 and caps the reported
profit factor at the finite value 99. -/
theorem c7_counterexample :
    ([{ pnl_pct := 10, pnl := 1000 }] : List Cmp.CmpTrade).filter
        (fun t => t.pnl_pct ≤ 0) = [] ∧
    (Cmp.stats 11000 [{ pnl_pct := 10, pnl := 1000 }]).map
        (fun s => s.profit_factor) = some 99 := by
  refine ⟨by norm_num, ?_⟩
  norm_num [Cmp.stats]

/-- C7 (amended): `Backtester._calculate_stats` computes profit_factor as
`sum(winning pnl) / |sum(losing pnl)|` (rounded to 2 decimals in the
report) and reports the `float('inf')` sentinel whenever there are no
losing trades; `compare_strategies.run_backtest`, however, substitutes the
finite value 999 — capped to 99 in the report — when there are no
losses. -/
theorem c7_amended :
    (∀ (final_capital : ℚ) (trades : List Trade)
        (equity_curve : List EquityPoint) (df : List Bar) (s : BtStats),
      calcStats final_capital trades equity_curve df = .report s →
      ((trades.filter (fun t => t.pnl < 0) = [] →
          s.profit_factor = .infinite) ∧
       (trades.filter (fun t => t.pnl < 0) ≠ [] →
          s.profit_factor = .finite (round2
            (((trades.filter (fun t => t.pnl > 0)).map (fun t => t.pnl)).sum
              / |((trades.filter (fun t => t.pnl < 0)).map
                    (fun t => t.pnl)).sum|))))) ∧
    (∀ (capital : ℚ) (trades : List Cmp.CmpTrade) (s : Cmp.CmpStats),
      Cmp.stats capital trades = some s →
      trades.filter (fun t => t.pnl_pct ≤ 0) = [] →
      s.profit_factor = 99) := by
  constructor
  · intro fc trades eq df s h
    rcases eq_or_ne trades [] with rfl | hne
    · simp [calcStats] at h
    · unfold calcStats at h
      rw [if_neg hne] at h
      injection h with h
      subst h
      constructor
      · intro hfe
        simp [hfe]
      · intro hfn
        have hlt : ((trades.filter (fun t => t.pnl < 0)).map
            (fun t => t.pnl)).sum < 0 := by
          refine sum_neg_of_all_neg _ (by simpa using hfn) ?_
          intro x hx
          simp only [List.mem_map, List.mem_filter] at hx
          obtain ⟨t, ⟨_, ht⟩, rfl⟩ := hx
          exact_mod_cast of_decide_eq_true ht
        have habs : (0:ℚ) <
            |((trades.filter (fun t => t.pnl < 0)).map (fun t => t.pnl)).sum| :=
          abs_pos.mpr (ne_of_lt hlt)
        simp [if_pos habs]
        exact ne_of_lt hlt
  · intro c trades s h hf
    rcases eq_or_ne trades [] with rfl | hne
    · simp [Cmp.stats] at h
    · unfold Cmp.stats at h
      rw [if_neg hne] at h
      have h' := Option.some.inj h
      subst h'
      simp [hf]
      norm_num

/-- Witness for C7: a one-winner log yields the infinite sentinel from
backtest.py's aggregator, and the finite substitute 99 from
compare_strategies'. -/
theorem c7_witness :
    (reportOf (calcStats 10400 [c6Trade] [] [])).profit_factor
      = PF.infinite ∧
    (cmpReportOf (Cmp.stats 12000 [{ pnl_pct := 5, pnl := 500 }])).profit_factor
      = 99 := by
  constructor
  · exact (c7_amended.1 10400 [c6Trade] [] []
      (reportOf (calcStats 10400 [c6Trade] [] []))
      (by norm_num [calcStats, reportOf])).1 (by norm_num [c6Trade])
  · exact c7_amended.2 12000 [{ pnl_pct := 5, pnl := 500 }]
      (cmpReportOf (Cmp.stats 12000 [{ pnl_pct := 5, pnl := 500 }]))
      (by norm_num [Cmp.stats, cmpReportOf]) (by norm_num)

/-- C8: `TradingStrategy.analyze` returns None (rather than raising)
whenever the snapshot lacks the `price` key — in particular for the empty
snapshot, whose every field is absent; and a missing optional indicator is
read through a neutral-safe default: a snapshot without `rsi` is analyzed
exactly like the same snapshot with `rsi = 50` (and likewise `stoch_k`,
read as 50). -/
theorem c8_missing_keys :
    (∀ (cfg : StratCfg) (ind : Snapshot) (tf now : String),
      ind.price = none → Trading.analyze cfg ind tf now = none) ∧
    (∀ (cfg : StratCfg) (ind : Snapshot) (tf now : String),
      Trading.analyze cfg { ind with rsi := none } tf now
        = Trading.analyze cfg { ind with rsi := some 50 } tf now) ∧
    (∀ (cfg : StratCfg) (ind : Snapshot) (tf now : String),
      Trading.analyze cfg { ind with stoch_k := none } tf now
        = Trading.analyze cfg { ind with stoch_k := some 50 } tf now) := by
  refine ⟨?_, fun cfg ind tf now => rfl, fun cfg ind tf now => rfl⟩
  intro cfg ind tf now h
  unfold Trading.analyze
  rw [h]

theorem le_pyMax_of_mem {l : List ℚ} {a : ℚ} (dflt : ℚ) (ha : a ∈ l) :
    a ≤ pyMax l dflt := by
  unfold pyMax
  cases hm : l.max? with
  | none => simp [List.max?_eq_none_iff.mp hm] at ha
  | some m => exact (ratMax?_spec.mp hm).2 a ha

theorem pyMax_le {l : List ℚ} {B : ℚ} (dflt : ℚ) (hl : ∀ x ∈ l, x ≤ B)
    (hd : dflt ≤ B) : pyMax l dflt ≤ B := by
  unfold pyMax
  cases hm : l.max? with
  | none => exact hd
  | some m => exact hl m (ratMax?_spec.mp hm).1

theorem pyMin_le_of_mem {l : List ℚ} {a : ℚ} (dflt : ℚ) (ha : a ∈ l) :
    pyMin l dflt ≤ a := by
  unfold pyMin
  cases hm : l.min? with
  | none => simp [List.min?_eq_none_iff.mp hm] at ha
  | some m => exact (ratMin?_spec.mp hm).2 a ha

theorem le_pyMin {l : List ℚ} {B : ℚ} (dflt : ℚ) (hl : ∀ x ∈ l, B ≤ x)
    (hd : B ≤ dflt) : B ≤ pyMin l dflt := by
  unfold pyMin
  cases hm : l.min? with
  | none => exact hd
  | some m => exact hl m (ratMin?_spec.mp hm).1

/-- Bounds of the long branch of the overnight level computation: the
(rounded) stop sits at least `0.5·ATR` below the price, the (rounded)
target at least `0.5·ATR` above it, and the target distance covers the
stop distance (the 1:1 risk/reward floor), all up to the `1/200` rounding
slack per level. -/
theorem calcLongLevels_bounds (s1 r1 bb_lower bb_middle bb_upper price atr : ℚ)
    (ha : 0 < atr) :
    (Overnight.calcLongLevels s1 r1 bb_lower bb_middle bb_upper price atr).1
        ≤ price - atr * (1/2) + 1/200 ∧
    price + atr * (1/2) - 1/200
        < (Overnight.calcLongLevels s1 r1 bb_lower bb_middle bb_upper price atr).2 ∧
    price - (Overnight.calcLongLevels s1 r1 bb_lower bb_middle bb_upper price atr).1
        - 1/100
      ≤ (Overnight.calcLongLevels s1 r1 bb_lower bb_middle bb_upper price atr).2
        - price := by
  unfold Overnight.calcLongLevels
  dsimp only
  set A := (if s1 > 0 ∧ s1 < price then [s1 - atr * (1/10)] else [])
    with hA
  set B := (if bb_lower > 0 ∧ bb_lower < price then [bb_lower - atr * (1/10)]
    else []) with hB
  set SLf := ([price - atr * (8/10)] ++ A ++ B).filter
    (fun sl => price - sl ≥ atr * (1/2)) with hSLf
  have hd0mem : price - atr * (8/10) ∈ SLf := by
    rw [hSLf]
    refine List.mem_filter.mpr ⟨by simp, ?_⟩
    simp only [decide_eq_true_eq]
    linarith
  set stop := pyMax SLf (price - atr * (8/10)) with hstop
  have hstop_ub : stop ≤ price - atr * (1/2) := by
    rw [hstop]
    refine pyMax_le _ ?_ (by linarith)
    intro x hx
    rw [hSLf] at hx
    have := (List.mem_filter.mp hx).2
    simp only [decide_eq_true_eq] at this
    linarith
  have hstop_lb : price - atr * (8/10) ≤ stop := le_pyMax_of_mem _ hd0mem
  set C := (if r1 > 0 ∧ r1 > price then [r1 - atr * (5/100)] else []) with hC
  set D := (if bb_middle > price then [bb_middle] else []) with hD
  set E := (if bb_upper > price then [bb_upper - atr * (1/10)] else [])
    with hE
  set TPf := ([price + atr * (15/10)] ++ C ++ D ++ E).filter
    (fun tp => tp ≥ price + (price - stop) * 1) with hTPf
  set tp := pyMin TPf (price + atr * (15/10)) with htp
  have htp_lb : price + (price - stop) * 1 ≤ tp := by
    rw [htp]
    refine le_pyMin _ ?_ (by linarith)
    intro x hx
    rw [hTPf] at hx
    have := (List.mem_filter.mp hx).2
    simp only [decide_eq_true_eq] at this
    linarith
  have hr1 := round2_le stop
  have hr2 := lt_round2 stop
  have hr3 := round2_le tp
  have hr4 := lt_round2 tp
  refine ⟨by linarith, by linarith, by linarith⟩

/-- Bounds of the short branch (mirror image of the long branch). -/
theorem calcShortLevels_bounds (s1 r1 bb_lower bb_middle bb_upper price
    atr : ℚ) (ha : 0 < atr) :
    price + atr * (1/2) - 1/200
        < (Overnight.calcShortLevels s1 r1 bb_lower bb_middle bb_upper price atr).1 ∧
    (Overnight.calcShortLevels s1 r1 bb_lower bb_middle bb_upper price atr).2
        ≤ price - atr * (1/2) + 1/200 ∧
    (Overnight.calcShortLevels s1 r1 bb_lower bb_middle bb_upper price atr).1 - price
        - 1/100
      ≤ price - (Overnight.calcShortLevels s1 r1 bb_lower bb_middle bb_upper price
          atr).2 := by
  unfold Overnight.calcShortLevels
  dsimp only
  set A := (if r1 > 0 ∧ r1 > price then [r1 + atr * (1/10)] else []) with hA
  set B := (if bb_upper > 0 ∧ bb_upper > price then [bb_upper + atr * (1/10)]
    else []) with hB
  set SLf := ([price + atr * (8/10)] ++ A ++ B).filter
    (fun sl => sl - price ≥ atr * (1/2)) with hSLf
  have hd0mem : price + atr * (8/10) ∈ SLf := by
    rw [hSLf]
    refine List.mem_filter.mpr ⟨by simp, ?_⟩
    simp only [decide_eq_true_eq]
    linarith
  set stop := pyMin SLf (price + atr * (8/10)) with hstop
  have hstop_lb : price + atr * (1/2) ≤ stop := by
    rw [hstop]
    refine le_pyMin _ ?_ (by linarith)
    intro x hx
    rw [hSLf] at hx
    have := (List.mem_filter.mp hx).2
    simp only [decide_eq_true_eq] at this
    linarith
  have hstop_ub : stop ≤ price + atr * (8/10) := pyMin_le_of_mem _ hd0mem
  set C := (if s1 > 0 ∧ s1 < price then [s1 + atr * (5/100)] else []) with hC
  set D := (if bb_middle < price then [bb_middle] else []) with hD
  set E := (if bb_lower < price then [bb_lower + atr * (1/10)] else [])
    with hE
  set TPf := ([price - atr * (15/10)] ++ C ++ D ++ E).filter
    (fun tp => tp ≤ price - (stop - price) * 1) with hTPf
  set tp := pyMax TPf (price - atr * (15/10)) with htp
  have htp_ub : tp ≤ price - (stop - price) * 1 := by
    rw [htp]
    refine pyMax_le _ ?_ (by linarith)
    intro x hx
    rw [hTPf] at hx
    have := (List.mem_filter.mp hx).2
    simp only [decide_eq_true_eq] at this
    linarith
  have hr1 := round2_le stop
  have hr2 := lt_round2 stop
  have hr3 := round2_le tp
  have hr4 := lt_round2 tp
  refine ⟨by linarith, by linarith, by linarith⟩

theorem trading_buy_sign {s : ℚ}
    (h : isBuyType (Trading.getSignalType s) = true) : 28 ≤ s := by
  unfold Trading.getSignalType at h
  split_ifs at h with h1 h2 h3 h4 <;>
    first
      | linarith
      | simp [isBuyType] at h

theorem trading_sell_sign {s : ℚ}
    (h : isSellType (Trading.getSignalType s) = true) : s ≤ -28 := by
  unfold Trading.getSignalType at h
  split_ifs at h with h1 h2 h3 h4 <;>
    first
      | linarith
      | simp [isSellType] at h

theorem overnight_buy_sign {s : ℚ}
    (h : isBuyType (Overnight.getSignalType s) = true) : 30 ≤ s := by
  unfold Overnight.getSignalType at h
  split_ifs at h with h1 h2 h3 h4 <;>
    first
      | linarith
      | simp [isBuyType] at h

theorem overnight_sell_sign {s : ℚ}
    (h : isSellType (Overnight.getSignalType s) = true) : s ≤ -30 := by
  unfold Overnight.getSignalType at h
  split_ifs at h with h1 h2 h3 h4 <;>
    first
      | linarith
      | simp [isSellType] at h

theorem trend_buy_sign {s : ℚ}
    (h : isBuyType (Trend.getSignalType s) = true) : 60 ≤ s := by
  unfold Trend.getSignalType at h
  split_ifs at h with h1 h2 h3 h4 <;>
    first
      | linarith
      | simp [isBuyType] at h

theorem trend_sell_sign {s : ℚ}
    (h : isSellType (Trend.getSignalType s) = true) : s ≤ -60 := by
  unfold Trend.getSignalType at h
  split_ifs at h with h1 h2 h3 h4 <;>
    first
      | linarith
      | simp [isSellType] at h

/-- Inversion of `Overnight.analyze`: a returned signal carries the
dynamic levels (re-rounded) at the composite score, and the volatility
gate passed. -/
theorem overnight_analyze_inv (cfg : StratCfg) (ind : Snapshot)
    (tf now : String) (sig : TradeSignal) (p : ℚ) (hp : ind.price = some p)
    (h : Overnight.analyze cfg ind tf now = some sig) :
    ∃ score : ℚ,
      sig.signal_type = Overnight.getSignalType score ∧
      sig.price = p ∧
      sig.entry_price = p ∧
      sig.stop_loss = round2 ((Overnight.calcDynamicLevels ind score p
        (ind.atr.getD (p * (1/100)))).1) ∧
      sig.take_profit = round2 ((Overnight.calcDynamicLevels ind score p
        (ind.atr.getD (p * (1/100)))).2) ∧
      ¬(ind.atr.getD (p * (1/100)) / p * 100 > 3
        ∨ ind.atr.getD (p * (1/100)) / p * 100 < 2/10) := by
  unfold Overnight.analyze at h
  rw [hp] at h
  dsimp only at h
  split at h
  · simp at h
  · rename_i hgate
    split at h
    · simp at h
    · split at h
      · simp at h
      · have hs := (Option.some.inj h).symm
        subst hs
        exact ⟨_, rfl, rfl, rfl, rfl, rfl, hgate⟩

/-- Inversion of `Trading.analyze`: a returned signal prices its levels at
fixed ATR multiples (2.8 stop / 1.6 target) on the side given by the sign
of the composite score, and the volatility gate passed. -/
theorem trading_analyze_inv (cfg : StratCfg) (ind : Snapshot)
    (tf now : String) (sig : TradeSignal) (p : ℚ) (hp : ind.price = some p)
    (h : Trading.analyze cfg ind tf now = some sig) :
    ∃ score : ℚ,
      sig.signal_type = Trading.getSignalType score ∧
      sig.price = p ∧
      sig.entry_price = p ∧
      (0 < score →
        sig.stop_loss = round2 (p - ind.atr.getD (p * (1/100)) * (28/10)) ∧
        sig.take_profit = round2 (p + ind.atr.getD (p * (1/100)) * (16/10))) ∧
      (¬ 0 < score →
        sig.stop_loss = round2 (p + ind.atr.getD (p * (1/100)) * (28/10)) ∧
        sig.take_profit = round2 (p - ind.atr.getD (p * (1/100)) * (16/10))) ∧
      ¬(ind.atr.getD (p * (1/100)) / p * 100 > 5
        ∨ ind.atr.getD (p * (1/100)) / p * 100 < 3/10) := by
  unfold Trading.analyze at h
  rw [hp] at h
  dsimp only at h
  repeat
    first
      | exact Option.noConfusion h
      | (have hs := (Option.some.inj h).symm
         subst hs
         refine ⟨_, rfl, rfl, rfl, ?_, ?_, by assumption⟩
         · intro hpos
           first
             | (rw [if_pos hpos]; exact ⟨rfl, rfl⟩)
             | rw [if_pos hpos]
             | exact ⟨rfl, rfl⟩
             | exact absurd hpos (by assumption)
         · intro hneg
           first
             | (rw [if_neg hneg]; exact ⟨rfl, rfl⟩)
             | exact ⟨rfl, rfl⟩
             | exact absurd (by assumption) hneg)
      | split at h

/-- Inversion of `Trend.analyze`: a returned signal prices its levels at
fixed ATR multiples (1.2 stop / 2.0 target) on the side given by the sign
of the pullback score, and the volatility gates passed. -/
theorem trend_analyze_inv (ind : Snapshot) (tf now : String)
    (sig : TradeSignal) (p : ℚ) (hp : ind.price = some p)
    (h : Trend.analyze ind tf now = some sig) :
    ∃ score : ℚ,
      sig.signal_type = Trend.getSignalType score ∧
      sig.price = p ∧
      sig.entry_price = p ∧
      (0 < score →
        sig.stop_loss = round2 (p - ind.atr.getD (p * (1/100)) * (12/10)) ∧
        sig.take_profit = round2 (p + ind.atr.getD (p * (1/100)) * 2)) ∧
      (¬ 0 < score →
        sig.stop_loss = round2 (p + ind.atr.getD (p * (1/100)) * (12/10)) ∧
        sig.take_profit = round2 (p - ind.atr.getD (p * (1/100)) * 2)) ∧
      ¬(ind.atr.getD (p * (1/100)) / p * 100 > 3) ∧
      ¬(ind.atr.getD (p * (1/100)) / p * 100 < 3/10) := by
  unfold Trend.analyze at h
  rw [hp] at h
  dsimp only at h
  repeat
    first
      | exact Option.noConfusion h
      | (have hs := (Option.some.inj h).symm
         subst hs
         refine ⟨_, rfl, rfl, rfl, ?_, ?_, by assumption, by assumption⟩
         · intro hpos
           first
             | (rw [if_pos hpos]; exact ⟨rfl, rfl⟩)
             | rw [if_pos hpos]
             | exact ⟨rfl, rfl⟩
             | exact absurd hpos (by assumption)
         · intro hneg
           first
             | (rw [if_neg hneg]; exact ⟨rfl, rfl⟩)
             | exact ⟨rfl, rfl⟩
             | exact absurd (by assumption) hneg)
      | split at h

theorem calcLongLevels_round2_fix (s1 r1 bb_lower bb_middle bb_upper price
    atr : ℚ) :
    round2 ((Overnight.calcLongLevels s1 r1 bb_lower bb_middle bb_upper
        price atr).1)
      = (Overnight.calcLongLevels s1 r1 bb_lower bb_middle bb_upper price
          atr).1 ∧
    round2 ((Overnight.calcLongLevels s1 r1 bb_lower bb_middle bb_upper
        price atr).2)
      = (Overnight.calcLongLevels s1 r1 bb_lower bb_middle bb_upper price
          atr).2 := by
  unfold Overnight.calcLongLevels
  dsimp only
  exact ⟨round2_idem _, round2_idem _⟩

theorem calcShortLevels_round2_fix (s1 r1 bb_lower bb_middle bb_upper price
    atr : ℚ) :
    round2 ((Overnight.calcShortLevels s1 r1 bb_lower bb_middle bb_upper
        price atr).1)
      = (Overnight.calcShortLevels s1 r1 bb_lower bb_middle bb_upper price
          atr).1 ∧
    round2 ((Overnight.calcShortLevels s1 r1 bb_lower bb_middle bb_upper
        price atr).2)
      = (Overnight.calcShortLevels s1 r1 bb_lower bb_middle bb_upper price
          atr).2 := by
  unfold Overnight.calcShortLevels
  dsimp only
  exact ⟨round2_idem _, round2_idem _⟩

/-- C9: every signal the structure-aware (overnight) strategy returns
meets the 1:1 risk/reward floor up to the final 2-decimal rounding of both
levels: for a long the target distance is at least the stop distance minus
the 0.01 rounding slack, symmetrically for a short.  `0 < p` is the
well-formedness of the snapshot's price. -/
theorem c9_rr_floor :
    ∀ (cfg : StratCfg) (ind : Snapshot) (tf now : String)
      (sig : TradeSignal) (p : ℚ),
      ind.price = some p → 0 < p →
      Overnight.analyze cfg ind tf now = some sig →
      (isBuyType sig.signal_type = true →
        (sig.price - sig.stop_loss) - 1/100 ≤ sig.take_profit - sig.price) ∧
      (isSellType sig.signal_type = true →
        (sig.stop_loss - sig.price) - 1/100 ≤ sig.price - sig.take_profit) := by
  intro cfg ind tf now sig p hp hppos h
  obtain ⟨score, hty, hpr, hep, hsl, htp, hgate⟩ :=
    overnight_analyze_inv cfg ind tf now sig p hp h
  push_neg at hgate
  have hA0 : 0 < ind.atr.getD (p * (1/100)) := by
    have h5 : (1:ℚ)/500 ≤ ind.atr.getD (p * (1/100)) / p := by
      have := hgate.2
      linarith
    have := (le_div_iff hppos).mp h5
    linarith
  constructor
  · intro hbuy
    rw [hty] at hbuy
    have hscore := overnight_buy_sign hbuy
    have hspos : score > 0 := by linarith
    have hcalc : Overnight.calcDynamicLevels ind score p
          (ind.atr.getD (p * (1/100)))
        = Overnight.calcLongLevels (ind.s1.getD 0) (ind.r1.getD 0)
            (ind.bb_lower.getD (p - ind.atr.getD (p * (1/100)) * 2))
            (ind.bb_middle.getD p)
            (ind.bb_upper.getD (p + ind.atr.getD (p * (1/100)) * 2)) p
            (ind.atr.getD (p * (1/100))) := by
      unfold Overnight.calcDynamicLevels
      rw [if_pos hspos]
    have hb := calcLongLevels_bounds (ind.s1.getD 0) (ind.r1.getD 0)
      (ind.bb_lower.getD (p - ind.atr.getD (p * (1/100)) * 2))
      (ind.bb_middle.getD p)
      (ind.bb_upper.getD (p + ind.atr.getD (p * (1/100)) * 2)) p
      (ind.atr.getD (p * (1/100))) hA0
    have hfix := calcLongLevels_round2_fix (ind.s1.getD 0) (ind.r1.getD 0)
      (ind.bb_lower.getD (p - ind.atr.getD (p * (1/100)) * 2))
      (ind.bb_middle.getD p)
      (ind.bb_upper.getD (p + ind.atr.getD (p * (1/100)) * 2)) p
      (ind.atr.getD (p * (1/100)))
    rw [hpr, hsl, htp, hcalc, hfix.1, hfix.2]
    exact hb.2.2
  · intro hsell
    rw [hty] at hsell
    have hscore := overnight_sell_sign hsell
    have hsneg : ¬ score > 0 := by
      intro hc
      linarith
    have hcalc : Overnight.calcDynamicLevels ind score p
          (ind.atr.getD (p * (1/100)))
        = Overnight.calcShortLevels (ind.s1.getD 0) (ind.r1.getD 0)
            (ind.bb_lower.getD (p - ind.atr.getD (p * (1/100)) * 2))
            (ind.bb_middle.getD p)
            (ind.bb_upper.getD (p + ind.atr.getD (p * (1/100)) * 2)) p
            (ind.atr.getD (p * (1/100))) := by
      unfold Overnight.calcDynamicLevels
      rw [if_neg hsneg]
    have hb := calcShortLevels_bounds (ind.s1.getD 0) (ind.r1.getD 0)
      (ind.bb_lower.getD (p - ind.atr.getD (p * (1/100)) * 2))
      (ind.bb_middle.getD p)
      (ind.bb_upper.getD (p + ind.atr.getD (p * (1/100)) * 2)) p
      (ind.atr.getD (p * (1/100))) hA0
    have hfix := calcShortLevels_round2_fix (ind.s1.getD 0) (ind.r1.getD 0)
      (ind.bb_lower.getD (p - ind.atr.getD (p * (1/100)) * 2))
      (ind.bb_middle.getD p)
      (ind.bb_upper.getD (p + ind.atr.getD (p * (1/100)) * 2)) p
      (ind.atr.getD (p * (1/100)))
    rw [hpr, hsl, htp, hcalc, hfix.1, hfix.2]
    exact hb.2.2

/-- A snapshot that makes the overnight strategy emit a strong mean-
reversion BUY (used as the C9 witness input). -/
def snapC9 : Snapshot :=
  { price := some 100, atr := some 1, rsi := some 25,
    bb_pband := some (-(1/10)), stoch_k := some 15, stoch_d := some 20,
    s1 := some (999/10), macd_hist := some 1, volume_ratio := some 2 }

/-- The signal `Overnight.analyze` returns on `snapC9`. -/
def sigC9 : TradeSignal :=
  { signal_type := .STRONG_BUY, strength := 65, price := 100,
    entry_price := 100, stop_loss := 992/10, take_profit := 1015/10,
    reasons := ["📊 均值回归策略", "RSI=25 深度超卖", "跌破布林带下轨",
      "接近支撑位S1 $99.90"],
    timeframe := "1h", timestamp := "t" }

set_option maxHeartbeats 2000000 in
/-- Witness for C9: on `snapC9` (entry 100, stop 99.2, target 101.5) the
floor holds: 101.5 - 100 ≥ (100 - 99.2) - 0.01. -/
theorem c9_witness :
    (sigC9.price - sigC9.stop_loss) - 1/100
      ≤ sigC9.take_profit - sigC9.price :=
  (c9_rr_floor {} snapC9 "1h" "t" sigC9 100 rfl (by norm_num)
      (by norm_num +decide [Overnight.analyze, Overnight.meanReversionSignal,
        Overnight.marketStructure, Overnight.momentumSignal,
        Overnight.getSignalType, Overnight.calcDynamicLevels,
        Overnight.calcLongLevels, Overnight.calcShortLevels, pyMax, pyMin,
        snapC9, sigC9, round2, ratTrunc, fmtFixed, List.max?, List.min?,
        max_def, min_def, abs])).1
    (by norm_num [sigC9, isBuyType])

/-- C5 (amended): for the three embedded strategy variants, whenever the
snapshot's ATR (or its `price/100` default) exceeds one rounding cent
(`atr > 0.01`), every returned signal's rounded stop/target strictly
bracket the entry price on the direction-appropriate sides; without that
bound the final 2-decimal rounding can collapse a level onto the entry
(see the counterexample). -/
theorem c5_amended :
    (∀ (cfg : StratCfg) (ind : Snapshot) (tf now : String)
        (sig : TradeSignal) (p : ℚ),
      ind.price = some p → 1/100 < ind.atr.getD (p * (1/100)) →
      Trading.analyze cfg ind tf now = some sig →
      (isBuyType sig.signal_type = true →
        sig.stop_loss < sig.entry_price ∧ sig.entry_price < sig.take_profit) ∧
      (isSellType sig.signal_type = true →
        sig.take_profit < sig.entry_price ∧ sig.entry_price < sig.stop_loss)) ∧
    (∀ (cfg : StratCfg) (ind : Snapshot) (tf now : String)
        (sig : TradeSignal) (p : ℚ),
      ind.price = some p → 1/100 < ind.atr.getD (p * (1/100)) →
      Overnight.analyze cfg ind tf now = some sig →
      (isBuyType sig.signal_type = true →
        sig.stop_loss < sig.entry_price ∧ sig.entry_price < sig.take_profit) ∧
      (isSellType sig.signal_type = true →
        sig.take_profit < sig.entry_price ∧ sig.entry_price < sig.stop_loss)) ∧
    (∀ (ind : Snapshot) (tf now : String) (sig : TradeSignal) (p : ℚ),
      ind.price = some p → 1/100 < ind.atr.getD (p * (1/100)) →
      Trend.analyze ind tf now = some sig →
      (isBuyType sig.signal_type = true →
        sig.stop_loss < sig.entry_price ∧ sig.entry_price < sig.take_profit) ∧
      (isSellType sig.signal_type = true →
        sig.take_profit < sig.entry_price ∧ sig.entry_price < sig.stop_loss)) := by
  refine ⟨?_, ?_, ?_⟩
  · intro cfg ind tf now sig p hp hA h
    obtain ⟨score, hty, _, hep, hpos, hneg, _⟩ :=
      trading_analyze_inv cfg ind tf now sig p hp h
    constructor
    · intro hbuy
      rw [hty] at hbuy
      have hs28 := trading_buy_sign hbuy
      obtain ⟨hsl, htp⟩ := hpos (by linarith)
      rw [hep, hsl, htp]
      have h1 := round2_le (p - ind.atr.getD (p * (1/100)) * (28/10))
      have h2 := lt_round2 (p + ind.atr.getD (p * (1/100)) * (16/10))
      constructor <;> linarith
    · intro hsell
      rw [hty] at hsell
      have hs28 := trading_sell_sign hsell
      obtain ⟨hsl, htp⟩ := hneg (by intro hc; linarith)
      rw [hep, hsl, htp]
      have h1 := round2_le (p - ind.atr.getD (p * (1/100)) * (16/10))
      have h2 := lt_round2 (p + ind.atr.getD (p * (1/100)) * (28/10))
      constructor <;> linarith
  · intro cfg ind tf now sig p hp hA h
    obtain ⟨score, hty, _, hep, hsl, htp, _⟩ :=
      overnight_analyze_inv cfg ind tf now sig p hp h
    have hA0 : 0 < ind.atr.getD (p * (1/100)) := by linarith
    constructor
    · intro hbuy
      rw [hty] at hbuy
      have hs := overnight_buy_sign hbuy
      have hcalc : Overnight.calcDynamicLevels ind score p
            (ind.atr.getD (p * (1/100)))
          = Overnight.calcLongLevels (ind.s1.getD 0) (ind.r1.getD 0)
              (ind.bb_lower.getD (p - ind.atr.getD (p * (1/100)) * 2))
              (ind.bb_middle.getD p)
              (ind.bb_upper.getD (p + ind.atr.getD (p * (1/100)) * 2)) p
              (ind.atr.getD (p * (1/100))) := by
        unfold Overnight.calcDynamicLevels
        rw [if_pos (show score > 0 by linarith)]
      have hb := calcLongLevels_bounds (ind.s1.getD 0) (ind.r1.getD 0)
        (ind.bb_lower.getD (p - ind.atr.getD (p * (1/100)) * 2))
        (ind.bb_middle.getD p)
        (ind.bb_upper.getD (p + ind.atr.getD (p * (1/100)) * 2)) p
        (ind.atr.getD (p * (1/100))) hA0
      have hfix := calcLongLevels_round2_fix (ind.s1.getD 0) (ind.r1.getD 0)
        (ind.bb_lower.getD (p - ind.atr.getD (p * (1/100)) * 2))
        (ind.bb_middle.getD p)
        (ind.bb_upper.getD (p + ind.atr.getD (p * (1/100)) * 2)) p
        (ind.atr.getD (p * (1/100)))
      rw [hep, hsl, htp, hcalc, hfix.1, hfix.2]
      constructor <;> linarith [hb.1, hb.2.1]
    · intro hsell
      rw [hty] at hsell
      have hs := overnight_sell_sign hsell
      have hcalc : Overnight.calcDynamicLevels ind score p
            (ind.atr.getD (p * (1/100)))
          = Overnight.calcShortLevels (ind.s1.getD 0) (ind.r1.getD 0)
              (ind.bb_lower.getD (p - ind.atr.getD (p * (1/100)) * 2))
              (ind.bb_middle.getD p)
              (ind.bb_upper.getD (p + ind.atr.getD (p * (1/100)) * 2)) p
              (ind.atr.getD (p * (1/100))) := by
        unfold Overnight.calcDynamicLevels
        rw [if_neg (show ¬ score > 0 by intro hc; linarith)]
      have hb := calcShortLevels_bounds (ind.s1.getD 0) (ind.r1.getD 0)
        (ind.bb_lower.getD (p - ind.atr.getD (p * (1/100)) * 2))
        (ind.bb_middle.getD p)
        (ind.bb_upper.getD (p + ind.atr.getD (p * (1/100)) * 2)) p
        (ind.atr.getD (p * (1/100))) hA0
      have hfix := calcShortLevels_round2_fix (ind.s1.getD 0) (ind.r1.getD 0)
        (ind.bb_lower.getD (p - ind.atr.getD (p * (1/100)) * 2))
        (ind.bb_middle.getD p)
        (ind.bb_upper.getD (p + ind.atr.getD (p * (1/100)) * 2)) p
        (ind.atr.getD (p * (1/100)))
      rw [hep, hsl, htp, hcalc, hfix.1, hfix.2]
      constructor <;> linarith [hb.1, hb.2.1]
  · intro ind tf now sig p hp hA h
    obtain ⟨score, hty, _, hep, hpos, hneg, _, _⟩ :=
      trend_analyze_inv ind tf now sig p hp h
    constructor
    · intro hbuy
      rw [hty] at hbuy
      have hs60 := trend_buy_sign hbuy
      obtain ⟨hsl, htp⟩ := hpos (by linarith)
      rw [hep, hsl, htp]
      have h1 := round2_le (p - ind.atr.getD (p * (1/100)) * (12/10))
      have h2 := lt_round2 (p + ind.atr.getD (p * (1/100)) * 2)
      constructor <;> linarith
    · intro hsell
      rw [hty] at hsell
      have hs60 := trend_sell_sign hsell
      obtain ⟨hsl, htp⟩ := hneg (by intro hc; linarith)
      rw [hep, hsl, htp]
      have h1 := round2_le (p - ind.atr.getD (p * (1/100)) * 2)
      have h2 := lt_round2 (p + ind.atr.getD (p * (1/100)) * (12/10))
      constructor <;> linarith

/-- A snapshot at the tiny price 1.00 with ATR 0.003 (0.3% — inside the V5
volatility gate) that produces a strong BUY. -/
def snapC5 : Snapshot :=
  { price := some 1, atr := some (3/1000), rsi := some 15,
    bb_pband := some (-(1/10)), stoch_k := some 14, stoch_d := some 13,
    adx := some 15, volume_ratio := some 2, obv_change := some 1,
    s1 := some (999/1000) }

/-- The signal `Trading.analyze` returns on `snapC5`: its take_profit,
`round(1 + 0.003·1.6, 2) = 1.00`, equals the entry price. -/
def sigC5 : TradeSignal :=
  { signal_type := .STRONG_BUY, strength := 65, price := 1,
    entry_price := 1, stop_loss := 99/100, take_profit := 1,
    reasons := ["📊 震荡市场", "RSI=15 极度超卖", "突破布林带下轨",
      "随机指标超卖金叉", "接近S1支撑"],
    timeframe := "1h", timestamp := "t" }

set_option maxHeartbeats 2000000 in
/-- C5 (counterexample): the V5 strategy, on a snapshot priced at 1.00
with ATR 0.003, returns a BUY signal whose rounded take_profit EQUALS the
entry price — the claimed strict bracketing
`stop < entry < target` fails at the rounding step. -/
theorem c5_counterexample :
    Trading.analyze {} snapC5 "1h" "t" = some sigC5 ∧
    sigC5.take_profit = sigC5.entry_price ∧
    isBuyType sigC5.signal_type = true := by
  refine ⟨?_, by norm_num [sigC5], by norm_num [sigC5, isBuyType]⟩
  norm_num +decide [Trading.analyze, Trading.getMarketState,
    Trading.meanReversionSignal, Trading.trendSignal, Trading.volumeSignal,
    Trading.marketStructure, Trading.getSignalType, snapC5, sigC5, round2,
    ratTrunc, fmtFixed, max_def, min_def, abs]

/-- A well-priced snapshot (price 100, ATR 1) on which the V5 strategy
emits a strong BUY; used by the C4 and C5 witnesses. -/
def snapC4 : Snapshot :=
  { price := some 100, atr := some 1, rsi := some 15,
    bb_pband := some (-(1/10)), stoch_k := some 14, stoch_d := some 13,
    adx := some 15, volume_ratio := some 2, obv_change := some 1,
    s1 := some (999/10) }

/-- The signal `Trading.analyze` returns on `snapC4` (clock "t"). -/
def sigC4 : TradeSignal :=
  { signal_type := .STRONG_BUY, strength := 65, price := 100,
    entry_price := 100, stop_loss := 972/10, take_profit := 1016/10,
    reasons := ["📊 震荡市场", "RSI=15 极度超卖", "突破布林带下轨",
      "随机指标超卖金叉", "接近S1支撑"],
    timeframe := "1h", timestamp := "t" }

set_option maxHeartbeats 2000000 in
/-- Witness for C5: on `snapC4` (entry 100, ATR 1 > 0.01) the returned
signal's levels strictly bracket the entry: 97.2 < 100 < 101.6. -/
theorem c5_witness :
    sigC4.stop_loss < sigC4.entry_price ∧
    sigC4.entry_price < sigC4.take_profit :=
  (c5_amended.1 {} snapC4 "1h" "t" sigC4 100 rfl (by norm_num [snapC4])
      (by norm_num +decide [Trading.analyze, Trading.getMarketState,
        Trading.meanReversionSignal, Trading.trendSignal,
        Trading.volumeSignal, Trading.marketStructure, Trading.getSignalType,
        snapC4, sigC4, round2, ratTrunc, fmtFixed, max_def, min_def,
        abs])).1
    (by norm_num [sigC4, isBuyType])

/-- The projection of a strategy's answer that the engine actually reads:
signal_type, strength, stop_loss, take_profit (backtest.py lines 150-175).
The timestamp, reasons, price and timeframe fields never enter the
engine's state. -/
def sigProj : Option TradeSignal → Option (SignalType × ℕ × ℚ × ℚ) :=
  fun o => o.map (fun g => (g.signal_type, g.strength, g.stop_loss,
    g.take_profit))

theorem openPosition_congr (st : BtState) (ct cp : ℚ)
    {o₁ o₂ : Option TradeSignal} (h : sigProj o₁ = sigProj o₂) :
    openPosition st ct cp o₁ = openPosition st ct cp o₂ := by
  cases o₁ with
  | none =>
    cases o₂ with
    | none => rfl
    | some g => simp [sigProj] at h
  | some g₁ =>
    cases o₂ with
    | none => simp [sigProj] at h
    | some g₂ =>
      have h' : g₁.signal_type = g₂.signal_type ∧ g₁.strength = g₂.strength ∧
          g₁.stop_loss = g₂.stop_loss ∧ g₁.take_profit = g₂.take_profit := by
        simpa [sigProj] using h
      obtain ⟨ha, hb, hc, hd⟩ := h'
      simp only [openPosition, ha, hb, hc, hd]

theorem stepBar_congr (indFn : ℕ → Option Snapshot)
    (strat₁ strat₂ : Snapshot → Option TradeSignal)
    (h : ∀ s, sigProj (strat₁ s) = sigProj (strat₂ s)) :
    stepBar indFn strat₁ = stepBar indFn strat₂ := by
  funext st p
  unfold stepBar
  cases hi : indFn p.1 with
  | none => rfl
  | some snap =>
    have hcong : ∀ (st' : BtState) (ct cp : ℚ),
        openPosition st' ct cp (strat₁ snap)
          = openPosition st' ct cp (strat₂ snap) :=
      fun st' ct cp => openPosition_congr st' ct cp (h snap)
    simp only [hcong]

theorem runBacktest_congr (indFn : ℕ → Option Snapshot)
    (strat₁ strat₂ : Snapshot → Option TradeSignal) (df : List Bar)
    (h : ∀ s, sigProj (strat₁ s) = sigProj (strat₂ s)) :
    runBacktest indFn strat₁ df = runBacktest indFn strat₂ df := by
  unfold runBacktest runLoop
  rw [stepBar_congr indFn strat₁ strat₂ h]

/-- The only clock-dependent value in a V5 signal is its timestamp;
projected to the fields the engine reads, `analyze` is clock-invariant. -/
theorem trading_analyze_clock (cfg : StratCfg) (ind : Snapshot)
    (tf n₁ n₂ : String) :
    sigProj (Trading.analyze cfg ind tf n₁)
      = sigProj (Trading.analyze cfg ind tf n₂) := by
  unfold Trading.analyze
  cases hp : ind.price with
  | none => rfl
  | some p =>
    dsimp only
    repeat
      first
        | rfl
        | split

/-- C4 (amended): the engine's BacktestResult — trade log, equity curve
and summary statistics — is bit-for-bit reproducible: it does not depend
on the wall clock threaded into the strategy, because the engine reads
only the clock-invariant fields of each signal.  (The emitted Signal
records themselves are NOT reproducible: their `timestamp` field comes
from `datetime.now()` — see the counterexample.) -/
theorem c4_amended :
    ∀ (cfg : StratCfg) (indFn : ℕ → Option Snapshot) (df : List Bar)
      (now₁ now₂ : String),
      runBacktest indFn (fun s => Trading.analyze cfg s "1h" now₁) df
        = runBacktest indFn (fun s => Trading.analyze cfg s "1h" now₂) df :=
  fun cfg indFn df n₁ n₂ =>
    runBacktest_congr indFn _ _ df
      (fun s => trading_analyze_clock cfg s "1h" n₁ n₂)

set_option maxHeartbeats 4000000 in
/-- C4 (counterexample): two runs of `analyze` on the identical snapshot
at different wall-clock instants emit Signals that differ (in the
timestamp field), so "every field of every emitted Signal is bit-for-bit
identical" is false. -/
theorem c4_counterexample :
    Trading.analyze {} snapC4 "1h" "2025-01-01 00:00:00"
      = some { sigC4 with timestamp := "2025-01-01 00:00:00" } ∧
    Trading.analyze {} snapC4 "1h" "2025-01-01 00:00:01"
      = some { sigC4 with timestamp := "2025-01-01 00:00:01" } ∧
    ({ sigC4 with timestamp := "2025-01-01 00:00:00" } : TradeSignal)
      ≠ { sigC4 with timestamp := "2025-01-01 00:00:01" } := by
  refine ⟨?_, ?_, ?_⟩
  · norm_num +decide [Trading.analyze, Trading.getMarketState,
      Trading.meanReversionSignal, Trading.trendSignal, Trading.volumeSignal,
      Trading.marketStructure, Trading.getSignalType, snapC4, sigC4, round2,
      ratTrunc, fmtFixed, max_def, min_def, abs]
  · norm_num +decide [Trading.analyze, Trading.getMarketState,
      Trading.meanReversionSignal, Trading.trendSignal, Trading.volumeSignal,
      Trading.marketStructure, Trading.getSignalType, snapC4, sigC4, round2,
      ratTrunc, fmtFixed, max_def, min_def, abs]
  · intro hcc
    have ht := congrArg TradeSignal.timestamp hcc
    simp only [sigC4] at ht
    exact absurd ht (by decide)

/-- Witness for C8: the empty snapshot is analyzed to None, and dropping
the rsi key from a concrete snapshot analyzes exactly like setting it to
the neutral default 50. -/
theorem c8_witness :
    Trading.analyze {} {} "1h" "t" = none ∧
    Trading.analyze {} { snapC4 with rsi := none } "1h" "t"
      = Trading.analyze {} { snapC4 with rsi := some 50 } "1h" "t" :=
  ⟨c8_missing_keys.1 {} {} "1h" "t" rfl,
   c8_missing_keys.2.1 {} snapC4 "1h" "t"⟩
